import Mathlib

/-!
# SecurityHeaderX — verification of the header-evaluation and scoring engine

Shallow embedding of the core of the SecurityHeaderX repository:

* `src/src/core/scanner.js`     — `SecurityHeaderChecker.analyzeHeaders`, `calculateGrade`
* `src/src/headers/essential.js` — essential-header validators and registry group
* `src/src/headers/advanced.js`  — advanced-header validators and registry group
* `src/src/headers/cors.js`      — CORS validators and registry group
* `src/src/headers/cookies.js`   — `checkSetCookieConfiguration`, `cookieAnalyzer`
* `src/src/headers/disclosure.js`— `checkDangerousHeaders`
* `src/config.js`                — weight tables, penalty tables, grade thresholds

Modelling conventions:

* JavaScript numbers are modelled as exact rationals (`ℚ`); the arithmetic used by
  the engine (sums of small integers and halves, products with the penalty
  multipliers, percentages) stays far from any double-precision anomaly that
  could change a finding, a penalty, or a rounded score.
* JavaScript strings are Lean `String`s; `value.includes(pat)` is the substring
  test `containsSub`, `toLowerCase`/`toUpperCase` are `toLowerStr`/`toUpperStr`
  (the header data is ASCII).
* A header value is either a single string or — for `Set-Cookie` — a list of
  strings, exactly the input contract of the engine ("a mapping of
  string→string/string-sequence").  JavaScript truthiness of such a value:
  a string is truthy iff it is non-empty, an array is always truthy.
* `JSON.parse` with its surrounding `try/catch` is modelled by the total parser
  `parseJson : String → Option Jval` (`none` = the call throws); fractional and
  exponent number forms and `\u` escapes are not modelled — no theorem below
  depends on such inputs.
* `Math.round` is `jsRound` (round half towards +∞), `Math.min`/`Math.max` are
  `min`/`max`; `parseInt` on a digit capture is `digitsToNat`.
-/

namespace SHX

/-- Severity strings used throughout the source (`criticalRating` fields).
Every finding and configuration issue in the code carries one of exactly these
four values, so they are modelled as an enumeration. -/
inductive Rating where
  | high
  | medium
  | low
  | info
deriving DecidableEq, Repr

/-- A header value as delivered by the HTTP collaborator: a plain string, or
(for `Set-Cookie`) a sequence of strings. -/
inductive HeaderValue where
  | str  (s : String)
  | strs (l : List String)
deriving DecidableEq, Repr

/-- JavaScript truthiness of a header value: a string is truthy iff non-empty;
an array is always truthy. -/
def HeaderValue.truthy : HeaderValue → Bool
  | .str s => s ≠ ""
  | .strs _ => true

/-- `value.includes(pat)` on JavaScript strings: substring containment,
over the underlying character lists. -/
def containsSubL (pat : List Char) : List Char → Bool
  | [] => pat = []
  | c :: rest => pat.isPrefixOf (c :: rest) || containsSubL pat rest

/-- `s.includes(pat)` for Lean strings. -/
def containsSub (s pat : String) : Bool :=
  containsSubL pat.data s.data

/-- ASCII lower-casing of one character (`String.prototype.toLowerCase`; the
header data is ASCII). -/
def jsCharToLower (c : Char) : Char :=
  if 'A' ≤ c ∧ c ≤ 'Z' then Char.ofNat (c.toNat + 32) else c

/-- ASCII upper-casing of one character. -/
def jsCharToUpper (c : Char) : Char :=
  if 'a' ≤ c ∧ c ≤ 'z' then Char.ofNat (c.toNat - 32) else c

/-- `s.toLowerCase()`. -/
def toLowerStr (s : String) : String := ⟨s.data.map jsCharToLower⟩

/-- `s.toUpperCase()`. -/
def toUpperStr (s : String) : String := ⟨s.data.map jsCharToUpper⟩

/-- `s.trim()`: strip leading and trailing whitespace. -/
def trimStr (s : String) : String :=
  ⟨((s.data.dropWhile Char.isWhitespace).reverse.dropWhile Char.isWhitespace).reverse⟩

/-- `s.split(c)` for a single-character separator. -/
def splitOnCharL (c : Char) : List Char → List (List Char)
  | [] => [[]]
  | x :: rest =>
      let r := splitOnCharL c rest
      if x = c then [] :: r
      else
        match r with
        | h :: t => (x :: h) :: t
        | [] => [[x]]

/-- `s.split(c)` as strings. -/
def splitOnChar (c : Char) (s : String) : List String :=
  (splitOnCharL c s.data).map (fun l => ⟨l⟩)

/-- Numeric value of a non-empty digit list (used for `parseInt` on a `\d+`
regex capture, which can never be `NaN`). -/
def digitsToNat (l : List Char) : Nat :=
  l.foldl (fun acc c => acc * 10 + (c.toNat - '0'.toNat)) 0

/-- The test of the version-number heuristic regex `/[0-9]+\.[0-9]+(\.[0-9]+)?/`
(`disclosure.js`): it succeeds exactly when some digit is immediately followed
by a dot and another digit. -/
def digitDotDigit : List Char → Bool
  | a :: b :: c :: rest =>
      (a.isDigit && b = '.' && c.isDigit) || digitDotDigit (b :: c :: rest)
  | _ => false

/-- `value.match(/max-age=(\d+)/)` (`essential.js`): the capture of the first
position where `max-age=` is followed by at least one digit; `none` when the
regex does not match. -/
def maxAgeCaptureL : List Char → Option Nat
  | [] => none
  | c :: rest =>
      if "max-age=".data.isPrefixOf (c :: rest) then
        let ds := ((c :: rest).drop 8).takeWhile Char.isDigit
        if ds ≠ [] then some (digitsToNat ds) else maxAgeCaptureL rest
      else maxAgeCaptureL rest

/-- String-level wrapper for `maxAgeCaptureL`. -/
def maxAgeCapture (s : String) : Option Nat :=
  maxAgeCaptureL s.data

/-- `/SameSite=(Strict|Lax|None)/i.exec(cookie)` (`cookies.js`): the lower-cased
first captured group, scanning the lower-cased cookie for the earliest
occurrence of one of the three literals (at any one position at most one
alternative can match, so alternative order is irrelevant). -/
def sameSiteScan : List Char → Option String
  | [] => none
  | c :: rest =>
      if "samesite=strict".data.isPrefixOf (c :: rest) then some "strict"
      else if "samesite=lax".data.isPrefixOf (c :: rest) then some "lax"
      else if "samesite=none".data.isPrefixOf (c :: rest) then some "none"
      else sameSiteScan rest

/-- `parseInt(value)` on an arbitrary string, `none` for `NaN`: skip leading
whitespace, optional sign, then a maximal non-empty digit prefix.  (The
automatic hexadecimal mode of `parseInt` for `0x` prefixes is not modelled;
no theorem depends on such an input.) -/
def jsParseInt (s : String) : Option Int :=
  let l := s.data.dropWhile (fun c => c.isWhitespace)
  let core : List Char → Option Int := fun l =>
    let ds := l.takeWhile Char.isDigit
    if ds = [] then none else some (digitsToNat ds)
  match l with
  | '-' :: rest => (core rest).map (fun n => -n)
  | '+' :: rest => core rest
  | _ => core l

/-! ## A model of `JSON.parse`

`advanced.js` wraps `JSON.parse` in `try { … } catch { … }`.  The call is
modelled by the total parser `parseJson`, with `none` standing for a thrown
`SyntaxError`.  JSON numbers are represented by their integer part (the engine
only compares `max_age` fields against integer thresholds); exponents are
accepted but ignored. -/

/-- The left curly-brace character. -/
def lbrace : Char := Char.ofNat 123

/-- The right curly-brace character. -/
def rbrace : Char := Char.ofNat 125

/-- A parsed JSON value. -/
inductive Jval where
  | null
  | bool (b : Bool)
  | num (n : Int)
  | str (s : String)
  | arr (elems : List Jval)
  | obj (fields : List (String × Jval))

/-- Skip JSON insignificant whitespace (space, tab, carriage return, newline —
exactly the set `Char.isWhitespace` recognises). -/
def skipWs (l : List Char) : List Char :=
  l.dropWhile Char.isWhitespace

/-- Hexadecimal digit value, for `\u` escapes. -/
def hexVal (c : Char) : Option Nat :=
  if c.isDigit then some (c.toNat - '0'.toNat)
  else if 'a' ≤ c ∧ c ≤ 'f' then some (c.toNat - 'a'.toNat + 10)
  else if 'A' ≤ c ∧ c ≤ 'F' then some (c.toNat - 'A'.toNat + 10)
  else none

/-- Single-character JSON string escapes. -/
def escChar (c : Char) : Option Char :=
  if c = '"' then some '"'
  else if c = '\\' then some '\\'
  else if c = '/' then some '/'
  else if c = 'n' then some '\n'
  else if c = 't' then some '\t'
  else if c = 'r' then some '\r'
  else if c = 'b' then some (Char.ofNat 8)
  else if c = 'f' then some (Char.ofNat 12)
  else none

/-- Parse the body of a JSON string literal (the opening quote already
consumed), returning the decoded characters and the remainder after the
closing quote. -/
def parseStrChars : List Char → Option (List Char × List Char)
  | [] => none
  | '"' :: rest => some ([], rest)
  | '\\' :: 'u' :: a :: b :: c :: d :: rest => do
      let ha ← hexVal a
      let hb ← hexVal b
      let hc ← hexVal c
      let hd ← hexVal d
      let (s, r) ← parseStrChars rest
      some (Char.ofNat (((ha * 16 + hb) * 16 + hc) * 16 + hd) :: s, r)
  | '\\' :: e :: rest => do
      let c ← escChar e
      let (s, r) ← parseStrChars rest
      some (c :: s, r)
  | c :: rest => do
      let (s, r) ← parseStrChars rest
      some (c :: s, r)

/-- A maximal non-empty digit prefix and the remainder. -/
def parseDigits (l : List Char) : Option (Nat × List Char) :=
  let ds := l.takeWhile Char.isDigit
  if ds = [] then none else some (digitsToNat ds, l.drop ds.length)

/-- Consume an optional fraction part (`.` followed by at least one digit). -/
def parseFrac : List Char → Option (List Char)
  | '.' :: r => (parseDigits r).map (·.2)
  | r => some r

/-- Digits of an exponent, after an optional sign. -/
def parseExpTail (r : List Char) : Option (List Char) :=
  match r with
  | '+' :: r2 => (parseDigits r2).map (·.2)
  | '-' :: r2 => (parseDigits r2).map (·.2)
  | _ => (parseDigits r).map (·.2)

/-- Consume an optional exponent part (`e`/`E`, optional sign, digits). -/
def parseExp : List Char → Option (List Char)
  | 'e' :: r => parseExpTail r
  | 'E' :: r => parseExpTail r
  | r => some r

/-- Parse a JSON number (integer part kept, fraction and exponent consumed). -/
def parseNum (l : List Char) : Option (Int × List Char) :=
  match l with
  | '-' :: r => do
      let (n, r2) ← parseDigits r
      let r3 ← parseFrac r2
      let r4 ← parseExp r3
      some (-(n : Int), r4)
  | _ => do
      let (n, r2) ← parseDigits l
      let r3 ← parseFrac r2
      let r4 ← parseExp r3
      some ((n : Int), r4)

mutual

/-- Parse one JSON value; the fuel bounds the recursion depth (each unit of
fuel corresponds to at least one consumed input character). -/
def parseVal : Nat → List Char → Option (Jval × List Char)
  | 0, _ => none
  | fuel + 1, input =>
    let l := skipWs input
    if "null".data.isPrefixOf l then some (.null, l.drop 4)
    else if "true".data.isPrefixOf l then some (.bool true, l.drop 4)
    else if "false".data.isPrefixOf l then some (.bool false, l.drop 5)
    else
      match l with
      | [] => none
      | c :: rest =>
        if c = '"' then
          (parseStrChars rest).map (fun p => (Jval.str ⟨p.1⟩, p.2))
        else if c = '[' then
          match skipWs rest with
          | ']' :: r => some (.arr [], r)
          | l2 => (parseElems fuel l2).map (fun p => (Jval.arr p.1, p.2))
        else if c = lbrace then
          match skipWs rest with
          | [] => none
          | c2 :: r =>
            if c2 = rbrace then some (.obj [], r)
            else (parseMembers fuel (c2 :: r)).map (fun p => (Jval.obj p.1, p.2))
        else
          (parseNum l).map (fun p => (Jval.num p.1, p.2))

/-- Parse the elements of a non-empty JSON array up to and including `]`. -/
def parseElems : Nat → List Char → Option (List Jval × List Char)
  | 0, _ => none
  | fuel + 1, l => do
    let (v, r) ← parseVal fuel l
    match skipWs r with
    | ',' :: r2 => (parseElems fuel r2).map (fun p => (v :: p.1, p.2))
    | ']' :: r2 => some ([v], r2)
    | _ => none

/-- Parse the members of a non-empty JSON object up to and including `}`. -/
def parseMembers : Nat → List Char → Option (List (String × Jval) × List Char)
  | 0, _ => none
  | fuel + 1, l =>
    match l with
    | '"' :: rest => do
        let (k, r) ← parseStrChars rest
        match skipWs r with
        | ':' :: r2 => do
            let (v, r3) ← parseVal fuel r2
            match skipWs r3 with
            | ',' :: r4 =>
                (parseMembers fuel (skipWs r4)).map
                  (fun p => ((⟨k⟩, v) :: p.1, p.2))
            | c :: r4 =>
                if c = rbrace then some ([(⟨k⟩, v)], r4) else none
            | [] => none
        | _ => none
    | _ => none

end

/-- `JSON.parse(s)`: `none` models a thrown `SyntaxError` (caught by the
validators in `advanced.js`); a parse must consume the entire input up to
trailing whitespace. -/
def parseJson (s : String) : Option Jval :=
  match parseVal (2 * s.length + 2) s.data with
  | some (v, r) => if skipWs r = [] then some v else none
  | none => none

/-- JavaScript truthiness of a parsed JSON value (`undefined` for a missing
object field is represented by `Jval.null`, which is equally falsy). -/
def Jval.jsTruthy : Jval → Bool
  | .null => false
  | .bool b => b
  | .num n => n ≠ 0
  | .str s => s ≠ ""
  | .arr _ => true
  | .obj _ => true

/-- Property access `j.k` on a parsed JSON value: the last binding of `k` when
`j` is an object with that key (JavaScript keeps the last duplicate), `null`
(≈ `undefined`) otherwise. -/
def Jval.field (j : Jval) (k : String) : Jval :=
  match j with
  | .obj fields => ((fields.reverse.find? (fun p => p.1 = k)).map (·.2)).getD .null
  | _ => .null

/-- The comparison `j < bound` for a `max_age` field: numeric for numbers;
for every other type the code's comparison involves `NaN` or string coercion
and is modelled as `false` (no theorem depends on a non-numeric `max_age`). -/
def Jval.numLt (j : Jval) (bound : Int) : Bool :=
  match j with
  | .num n => n < bound
  | _ => false

/-! ## Configuration validators (`essential.js`, `advanced.js`, `cors.js`) -/

/-- Result of a configuration validator (`{issue, recommendation,
criticalRating}` — every issue literal in the source carries all three
fields). -/
structure ConfigIssue where
  issue : String
  recommendation : String
  criticalRating : Rating
deriving DecidableEq, Repr

/-- `checkHstsConfiguration` (`essential.js`): priority chain — missing value,
missing `max-age=`, `max-age` capture below one year, missing
`includeSubDomains`, missing `preload`. -/
def checkHstsConfiguration (value : String) : Option ConfigIssue :=
  if value = "" then
    some ⟨"HSTS header missing",
          "Add Strict-Transport-Security header with appropriate directives", .high⟩
  else if ¬ containsSub value "max-age=" then
    some ⟨"HSTS header missing max-age directive",
          "Add max-age directive with a value of at least 31536000 (1 year)", .high⟩
  else if (maxAgeCapture value).any (fun n => n < 31536000) then
    some ⟨"HSTS max-age is less than 1 year",
          "Increase max-age to at least 31536000 (1 year)", .medium⟩
  else if ¬ containsSub value "includeSubDomains" then
    some ⟨"HSTS missing includeSubDomains directive",
          "Add includeSubDomains directive to protect all subdomains", .low⟩
  else if ¬ containsSub value "preload" then
    some ⟨"HSTS missing preload directive",
          "Consider adding preload directive to be eligible for browser preload lists", .info⟩
  else none

/-- `checkCspConfiguration` (`essential.js`).  The quoted CSP keywords
`'unsafe-inline'` / `'unsafe-eval'` are written with `\x27` for the
apostrophes. -/
def checkCspConfiguration (value : String) : Option ConfigIssue :=
  if value = "" then
    some ⟨"CSP header missing",
          "Add Content-Security-Policy header with appropriate directives", .high⟩
  else if containsSub value "\x27unsafe-inline\x27" || containsSub value "\x27unsafe-eval\x27" then
    some ⟨"CSP contains unsafe directives",
          "Remove unsafe-inline and unsafe-eval directives, use nonces or hashes instead", .high⟩
  else if containsSub value "*" && !containsSub value "font-src" && !containsSub value "img-src" then
    some ⟨"CSP contains wildcards",
          "Avoid using wildcards in CSP directives", .medium⟩
  else
    let missingDirectives :=
      ["default-src", "script-src", "style-src"].filter
        (fun directive => ¬ containsSub value directive)
    if missingDirectives ≠ [] then
      some ⟨"CSP missing recommended directives: " ++ String.intercalate ", " missingDirectives,
            "Include all recommended directives in your CSP", .medium⟩
    else none

/-- `checkXFrameOptionsConfiguration` (`essential.js`). -/
def checkXFrameOptionsConfiguration (value : String) : Option ConfigIssue :=
  if toUpperStr value ≠ "DENY" ∧ toUpperStr value ≠ "SAMEORIGIN" then
    some ⟨"X-Frame-Options has invalid value",
          "Use either DENY or SAMEORIGIN values", .medium⟩
  else none

/-- `checkXssProtectionConfiguration` (`essential.js`). -/
def checkXssProtectionConfiguration (value : String) : Option ConfigIssue :=
  if ¬ containsSub value "1" then
    some ⟨"XSS Protection is disabled",
          "Set value to \"1; mode=block\"", .medium⟩
  else if ¬ containsSub value "mode=block" then
    some ⟨"XSS Protection is enabled but not in blocking mode",
          "Add mode=block directive", .low⟩
  else none

/-- `checkReferrerPolicyConfiguration` (`essential.js`): the first weak policy
contained in the value (loop order: `unsafe-url`, then
`no-referrer-when-downgrade`). -/
def checkReferrerPolicyConfiguration (value : String) : Option ConfigIssue :=
  (["unsafe-url", "no-referrer-when-downgrade"].find?
      (fun weakPolicy => containsSub value weakPolicy)).map
    (fun weakPolicy =>
      ⟨"Referrer-Policy contains weak policy: " ++ weakPolicy,
       "Use stricter policies like strict-origin-when-cross-origin", .low⟩)

/-- `checkExpectCtConfiguration` (`advanced.js`): directive-based checks, no
JSON parsing. -/
def checkExpectCtConfiguration (value : String) : Option ConfigIssue :=
  if ¬ containsSub value "max-age=" then
    some ⟨"Expect-CT header missing max-age directive",
          "Add max-age directive with an appropriate value", .medium⟩
  else if ¬ containsSub value "enforce" then
    some ⟨"Expect-CT header missing enforce directive",
          "Add enforce directive to require Certificate Transparency compliance", .low⟩
  else none

/-- `checkReportToConfiguration` (`advanced.js`): a `JSON.parse` failure is
caught and reported as a low-severity issue; otherwise the `endpoints` array
and the `max_age` field are checked. -/
def checkReportToConfiguration (value : String) : Option ConfigIssue :=
  match parseJson value with
  | none =>
      some ⟨"Report-To header contains invalid JSON",
            "Ensure the Report-To header contains valid JSON", .low⟩
  | some reportConfig =>
      if (match reportConfig.field "endpoints" with
          | .arr (_ :: _) => false
          | _ => true) then
        some ⟨"Report-To header has invalid or missing endpoints",
              "Include at least one valid endpoint in the Report-To configuration", .low⟩
      else if ¬ (reportConfig.field "max_age").jsTruthy
              || (reportConfig.field "max_age").numLt 86400 then
        some ⟨"Report-To header has short max_age or missing max_age",
              "Set max_age to at least 86400 (1 day)", .info⟩
      else none

/-- `checkNelConfiguration` (`advanced.js`). -/
def checkNelConfiguration (value : String) : Option ConfigIssue :=
  match parseJson value with
  | none =>
      some ⟨"NEL header contains invalid JSON",
            "Ensure the NEL header contains valid JSON", .low⟩
  | some nelConfig =>
      if ¬ (nelConfig.field "report_to").jsTruthy then
        some ⟨"NEL header missing report_to field",
              "Include report_to field to specify the reporting group", .low⟩
      else if ¬ (nelConfig.field "max_age").jsTruthy
              || (nelConfig.field "max_age").numLt 86400 then
        some ⟨"NEL header has short max_age or missing max_age",
              "Set max_age to at least 86400 (1 day)", .info⟩
      else none

/-- `checkClearSiteDataConfiguration` (`advanced.js`): only JSON validity. -/
def checkClearSiteDataConfiguration (value : String) : Option ConfigIssue :=
  match parseJson value with
  | none =>
      some ⟨"Clear-Site-Data header contains invalid JSON",
            "Ensure the Clear-Site-Data header contains valid JSON", .low⟩
  | some _ => none

/-- `checkCoepConfiguration` (`advanced.js`). -/
def checkCoepConfiguration (value : String) : Option ConfigIssue :=
  if value ≠ "require-corp" ∧ value ≠ "credentialless" then
    some ⟨"Cross-Origin-Embedder-Policy has invalid value",
          "Use either \"require-corp\" or \"credentialless\" values", .low⟩
  else none

/-- `checkCoopConfiguration` (`advanced.js`). -/
def checkCoopConfiguration (value : String) : Option ConfigIssue :=
  if value ≠ "same-origin" ∧ value ≠ "same-origin-allow-popups" ∧ value ≠ "unsafe-none" then
    some ⟨"Cross-Origin-Opener-Policy has invalid value",
          "Use \"same-origin\", \"same-origin-allow-popups\", or \"unsafe-none\" values", .low⟩
  else none

/-- `checkCorpConfiguration` (`advanced.js`). -/
def checkCorpConfiguration (value : String) : Option ConfigIssue :=
  if value ≠ "same-site" ∧ value ≠ "same-origin" ∧ value ≠ "cross-origin" then
    some ⟨"Cross-Origin-Resource-Policy has invalid value",
          "Use \"same-site\", \"same-origin\", or \"cross-origin\" values", .low⟩
  else none

/-- `checkAccessControlAllowOriginConfiguration` (`cors.js`). -/
def checkAccessControlAllowOriginConfiguration (value : String) : Option ConfigIssue :=
  if value = "*" then
    some ⟨"Access-Control-Allow-Origin uses wildcard (*)",
          "Restrict CORS to specific origins instead of using a wildcard", .medium⟩
  else none

/-- `checkAccessControlAllowCredentialsConfiguration` (`cors.js`): the one
cross-header validator.  The source reads
`headers['access-control-allow-origin'] === '*'` from the full normalized
map; the evaluation engine passes the result of that strict-equality test as
`allowOriginStar`. -/
def checkAccessControlAllowCredentialsConfiguration
    (value : String) (allowOriginStar : Bool) : Option ConfigIssue :=
  if toLowerStr value = "true" ∧ allowOriginStar then
    some ⟨"Access-Control-Allow-Credentials is true while Allow-Origin is wildcard",
          "When allowing credentials, specify explicit origins instead of using a wildcard",
          .high⟩
  else none

/-- `checkAccessControlAllowMethodsConfiguration` (`cors.js`). -/
def checkAccessControlAllowMethodsConfiguration (value : String) : Option ConfigIssue :=
  let allowedMethods := (splitOnChar ',' value).map (fun method => toUpperStr (trimStr method))
  let allowedSensitiveMethods :=
    ["PUT", "DELETE", "PATCH"].filter (fun method => allowedMethods.contains method)
  if allowedSensitiveMethods ≠ [] then
    some ⟨"CORS allows potentially dangerous methods: "
            ++ String.intercalate ", " allowedSensitiveMethods,
          "Only allow necessary HTTP methods in Access-Control-Allow-Methods", .low⟩
  else none

/-- `checkAccessControlAllowHeadersConfiguration` (`cors.js`). -/
def checkAccessControlAllowHeadersConfiguration (value : String) : Option ConfigIssue :=
  if value = "*" then
    some ⟨"Access-Control-Allow-Headers uses wildcard (*)",
          "Explicitly list allowed headers instead of using a wildcard", .low⟩
  else none

/-- `checkAccessControlExposeHeadersConfiguration` (`cors.js`). -/
def checkAccessControlExposeHeadersConfiguration (value : String) : Option ConfigIssue :=
  let exposedHeaders := (splitOnChar ',' value).map (fun header => toLowerStr (trimStr header))
  let exposedSensitiveHeaders :=
    ["Authorization", "X-API-Key", "X-Auth-Token", "Set-Cookie"].filter
      (fun header => exposedHeaders.contains (toLowerStr header))
  if exposedSensitiveHeaders ≠ [] then
    some ⟨"Exposing potentially sensitive headers: "
            ++ String.intercalate ", " exposedSensitiveHeaders,
          "Avoid exposing sensitive headers to cross-origin requests", .medium⟩
  else none

/-- `checkAccessControlMaxAgeConfiguration` (`cors.js`): `parseInt(value)`
compared against 86400 (`NaN > 86400` is `false`). -/
def checkAccessControlMaxAgeConfiguration (value : String) : Option ConfigIssue :=
  match jsParseInt value with
  | some maxAge =>
      if maxAge > 86400 then
        some ⟨"Access-Control-Max-Age is excessively long",
              "Consider using a shorter max-age value (e.g., 7200 seconds / 2 hours)", .info⟩
      else none
  | none => none

/-! ## Cookie module (`cookies.js`) -/

/-- `cookie.split('=')[0].trim()`: the cookie name. -/
def cookieNameOf (cookie : String) : String :=
  trimStr ((splitOnChar '=' cookie).headD "")

/-- The sensitive-keyword list of `checkSetCookieConfiguration`. -/
def sensitiveKeywords : List String :=
  ["auth", "session", "token", "key", "secret", "password", "credential"]

/-- The per-cookie issues accumulated by `checkSetCookieConfiguration`
(`cookies.js`, lines 16–104), in push order: Secure, HttpOnly,
SameSite / SameSite=None-without-Secure, expiration, Path, then the
sensitive-name check (`break` after the **first** matching keyword). -/
def setCookieIssuesFor (cookie : String) : List ConfigIssue :=
  let cookieName := cookieNameOf cookie
  (if ¬ containsSub cookie "Secure" then
    [⟨"Cookie \"" ++ cookieName ++ "\" missing Secure attribute",
      "Add Secure attribute to ensure cookie is only sent over HTTPS", .high⟩]
   else []) ++
  (if ¬ containsSub cookie "HttpOnly" then
    [⟨"Cookie \"" ++ cookieName ++ "\" missing HttpOnly attribute",
      "Add HttpOnly attribute to prevent JavaScript access to cookie", .high⟩]
   else []) ++
  (if ¬ containsSub cookie "SameSite" then
    [⟨"Cookie \"" ++ cookieName ++ "\" missing SameSite attribute",
      "Add SameSite=Strict or SameSite=Lax attribute to prevent CSRF attacks", .medium⟩]
   else if containsSub cookie "SameSite=None" ∧ ¬ containsSub cookie "Secure" then
    [⟨"Cookie \"" ++ cookieName ++ "\" has SameSite=None without Secure attribute",
      "When using SameSite=None, the Secure attribute is required", .high⟩]
   else []) ++
  (if ¬ containsSub cookie "Max-Age" ∧ ¬ containsSub cookie "Expires" then
    [⟨"Cookie \"" ++ cookieName ++ "\" missing expiration (Max-Age or Expires)",
      "Add Max-Age or Expires to prevent indefinite persistence", .low⟩]
   else []) ++
  (if ¬ containsSub cookie "Path=" then
    [⟨"Cookie \"" ++ cookieName ++ "\" missing Path attribute",
      "Add a specific Path attribute to limit cookie scope", .low⟩]
   else if containsSub cookie "Path=/" then
    [⟨"Cookie \"" ++ cookieName ++ "\" uses broad Path=/ scope",
      "Consider restricting Path to specific application paths if possible", .info⟩]
   else []) ++
  (match sensitiveKeywords.find? (fun keyword => containsSub (toLowerStr cookieName) keyword) with
   | some _ =>
      let missingAttributes :=
        (if ¬ containsSub cookie "Secure" then ["Secure"] else []) ++
        (if ¬ containsSub cookie "HttpOnly" then ["HttpOnly"] else []) ++
        (if ¬ containsSub cookie "SameSite" then ["SameSite"] else [])
      if missingAttributes ≠ [] then
        [⟨"Potentially sensitive cookie \"" ++ cookieName
            ++ "\" missing critical attributes: "
            ++ String.intercalate ", " missingAttributes,
          "Ensure all security attributes are set for sensitive cookies", .high⟩]
      else []
   | none => [])

/-- `checkSetCookieConfiguration` (`cookies.js`): gathers issues over all
cookies (`Array.isArray` wrap for a single string) and returns the first
issue, or `null`. -/
def checkSetCookieConfiguration (value : HeaderValue) : Option ConfigIssue :=
  let cookies := match value with
    | .strs l => l
    | .str s => [s]
  ((cookies.map setCookieIssuesFor).flatten).head?

/-- Nested per-attribute issue of a cookie finding
(`cookieAnalyzer`, `cookies.js`). -/
structure CookieIssue where
  type : String
  description : String
  recommendation : String
  criticalRating : Rating
deriving DecidableEq, Repr

/-- The issue list and score adjustment `cookieAnalyzer` computes for one
cookie: Secure (−2), HttpOnly (−2), SameSite via the
`/SameSite=(Strict|Lax|None)/i` test (−1), or SameSite=None without
Secure (−2). -/
def cookieAnalyzerIssuesFor (cookie : String) : List CookieIssue × Int :=
  let secure := containsSub cookie "Secure"
  let httpOnly := containsSub cookie "HttpOnly"
  let sameSiteMatch := sameSiteScan (toLowerStr cookie).data
  let sameSite := sameSiteMatch.isSome
  let sameSiteValue := sameSiteMatch.getD "none"
  let issues :=
    (if ¬ secure then
      [⟨"missing_secure", "Missing Secure attribute",
        "Add Secure attribute to ensure cookie is only sent over HTTPS", .high⟩]
     else []) ++
    (if ¬ httpOnly then
      [⟨"missing_httponly", "Missing HttpOnly attribute",
        "Add HttpOnly attribute to prevent JavaScript access to cookie", .high⟩]
     else []) ++
    (if ¬ sameSite then
      [⟨"missing_samesite", "Missing SameSite attribute",
        "Add SameSite=Strict or SameSite=Lax attribute to prevent CSRF attacks", .medium⟩]
     else if sameSiteValue = "none" ∧ ¬ secure then
      [⟨"samesite_none_without_secure", "Using SameSite=None without Secure attribute",
        "When using SameSite=None, the Secure attribute is required", .high⟩]
     else [])
  let adjustment : Int :=
    (if ¬ secure then -2 else 0) + (if ¬ httpOnly then -2 else 0) +
    (if ¬ sameSite then -1 else 0) +
    (if sameSite ∧ sameSiteValue = "none" ∧ ¬ secure then -2 else 0)
  (issues, adjustment)

/-! ## Findings and analyzers -/

/-- One finding, as pushed by the evaluation engine or an analyzer.  The
source's finding objects carry different subsets of fields depending on the
status; absent fields are `none`. -/
structure Finding where
  header : String
  status : String
  value : Option HeaderValue := none
  description : Option String := none
  recommendation : Option String := none
  issue : Option String := none
  criticalRating : Rating
  category : Option String := none
  weight : Option ℚ := none
  pointsEarned : Option ℚ := none
  cookie : Option String := none
  issues : Option (List CookieIssue) := none
deriving DecidableEq, Repr

/-- Result shape `{findings, scoreAdjustment}` returned by the two
analyzers. -/
structure AnalyzerResult where
  findings : List Finding
  scoreAdjustment : Int
deriving DecidableEq, Repr

/-- `cookieAnalyzer` (`cookies.js`): one `misconfigured` finding per cookie
that has at least one issue, issues nested on the finding; the finding's own
`criticalRating` is always `high`.  The cookie's `value:` field is the raw
cookie string. -/
def cookieAnalyzer (setCookieValues : HeaderValue) : AnalyzerResult :=
  let cookies := match setCookieValues with
    | .strs l => l
    | .str s => [s]
  { findings :=
      cookies.filterMap (fun cookie =>
        let cookieIssues := (cookieAnalyzerIssuesFor cookie).1
        if cookieIssues = [] then none
        else some
          { header := "Cookie Security", status := "misconfigured",
            cookie := some (cookieNameOf cookie), value := some (.str cookie),
            issues := some cookieIssues,
            recommendation := some "Set appropriate security attributes for cookies",
            criticalRating := .high }),
    scoreAdjustment :=
      cookies.foldl (fun acc cookie => acc + (cookieAnalyzerIssuesFor cookie).2) 0 }

/-- One row of the information-disclosure table (`disclosure.js`). -/
structure DangerEntry where
  key : String
  name : String
  description : String
  recommendation : String
  criticalRating : Rating

/-- The fixed table of ~19 information-leaking header/cookie names
(`disclosure.js`, in source order). -/
def dangerousHeadersTable : List DangerEntry :=
  [⟨"server", "Server", "Reveals server software version",
    "Remove or sanitize the Server header to hide implementation details", .low⟩,
   ⟨"x-powered-by", "X-Powered-By", "Reveals technology stack information",
    "Remove the X-Powered-By header to hide implementation details", .low⟩,
   ⟨"x-aspnet-version", "X-AspNet-Version", "Reveals ASP.NET version",
    "Remove the X-AspNet-Version header", .medium⟩,
   ⟨"x-aspnetmvc-version", "X-AspNetMvc-Version", "Reveals ASP.NET MVC version",
    "Remove the X-AspNetMvc-Version header", .medium⟩,
   ⟨"x-generator", "X-Generator", "Reveals the platform or CMS used",
    "Remove the X-Generator header", .low⟩,
   ⟨"x-drupal-cache", "X-Drupal-Cache", "Reveals Drupal as the CMS",
    "Remove the X-Drupal-Cache header", .low⟩,
   ⟨"x-drupal-dynamic-cache", "X-Drupal-Dynamic-Cache", "Reveals Drupal as the CMS",
    "Remove the X-Drupal-Dynamic-Cache header", .low⟩,
   ⟨"x-wordpress-cache", "X-WordPress-Cache", "Reveals WordPress as the CMS",
    "Remove the X-WordPress-Cache header", .low⟩,
   ⟨"x-wp-nonce", "X-WP-Nonce", "Reveals WordPress as the CMS",
    "Consider whether this header should be exposed", .low⟩,
   ⟨"x-pingback", "X-Pingback", "Often indicates WordPress and provides an XML-RPC endpoint",
    "Remove the X-Pingback header if not needed", .low⟩,
   ⟨"laravel_session", "laravel_session", "Reveals Laravel as the framework",
    "Rename the session cookie to hide framework information", .low⟩,
   ⟨"phpbb-data", "phpbb-data", "Reveals phpBB as the forum software",
    "Rename the cookie to hide implementation details", .low⟩,
   ⟨"joomla_user_state", "joomla_user_state", "Reveals Joomla as the CMS",
    "Rename the cookie to hide implementation details", .low⟩,
   ⟨"x-varnish", "X-Varnish", "Reveals Varnish Cache is in use",
    "Consider removing the X-Varnish header", .info⟩,
   ⟨"via", "Via", "May reveal proxy information",
    "Consider customizing or removing the Via header", .info⟩,
   ⟨"x-cache", "X-Cache", "Reveals caching infrastructure details",
    "Consider removing the X-Cache header", .info⟩,
   ⟨"x-runtime", "X-Runtime", "Reveals application runtime information",
    "Remove the X-Runtime header to hide implementation details", .low⟩,
   ⟨"x-debug-token", "X-Debug-Token", "Debug information from Symfony framework",
    "Remove debug headers in production", .medium⟩,
   ⟨"x-debug-token-link", "X-Debug-Token-Link", "Debug information from Symfony framework",
    "Remove debug headers in production", .medium⟩]

/-- The analyzer's internal per-severity deductions (`disclosure.js`,
`switch(info.criticalRating)`: high −3, medium −2, low −1, default −0).
These feed only the analyzer's `scoreAdjustment`, which the evaluation engine
does not read. -/
def disclosureAdjustmentPoints : Rating → Int
  | .high => 3
  | .medium => 2
  | .low => 1
  | .info => 0

/-- The version-number heuristic applied to a header value.  For an array
value JavaScript's `regex.test` coerces the array to its comma-joined string
form. -/
def versionHeaderTest : HeaderValue → Bool
  | .str s => digitDotDigit s.data
  | .strs l => digitDotDigit (String.intercalate "," l).data

/-- The `dangerous` finding pushed for a matched disclosure-table row. -/
def dangerFinding (info : DangerEntry) (v : HeaderValue) : Finding :=
  { header := info.name, status := "dangerous", value := some v,
    description := some info.description,
    recommendation := some info.recommendation,
    criticalRating := info.criticalRating }

/-- The extra medium finding the version-number heuristic pushes for one of
`Server` / `X-Powered-By` when the header is truthy and its value matches the
version regex. -/
def versionFindingsFor (tv : String → Option HeaderValue)
    (key disp desc reco : String) : List Finding :=
  match tv key with
  | some v =>
      if versionHeaderTest v then
        [{ header := disp, status := "dangerous", value := some v,
           description := some desc, recommendation := some reco,
           criticalRating := .medium }]
      else []
  | none => []

/-- `checkDangerousHeaders` (`disclosure.js`): a `dangerous` finding per
truthy table match, plus a medium version-heuristic finding for each of
`Server` and `X-Powered-By`.  `tv` is truthiness-filtered lookup into the
normalized header map (`if (headers[header])`). -/
def checkDangerousHeaders (tv : String → Option HeaderValue) : AnalyzerResult :=
  let tableFindings := dangerousHeadersTable.filterMap (fun info =>
    (tv info.key).map (dangerFinding info))
  let tableAdjustment := dangerousHeadersTable.foldl (fun acc info =>
    if (tv info.key).isSome then acc - disclosureAdjustmentPoints info.criticalRating
    else acc) 0
  let serverFindings := versionFindingsFor tv "server" "Server"
    "Server header contains version information"
    "Remove version information from Server header"
  let poweredByFindings := versionFindingsFor tv "x-powered-by" "X-Powered-By"
    "X-Powered-By header contains version information"
    "Remove version information from X-Powered-By header"
  { findings := tableFindings ++ serverFindings ++ poweredByFindings,
    scoreAdjustment :=
      tableAdjustment - (if serverFindings ≠ [] then 2 else 0)
        - (if poweredByFindings ≠ [] then 2 else 0) }

/-! ## Configuration (`config.js`) -/

/-- `config.essentialHeaderWeights` (the values sum to 75). -/
def essentialHeaderWeights : List (String × ℚ) :=
  [("strict-transport-security", 15), ("content-security-policy", 15),
   ("x-content-type-options", 10), ("x-frame-options", 10),
   ("referrer-policy", 8), ("permissions-policy", 7),
   ("x-xss-protection", 5), ("cache-control", 5)]

/-- `config.advancedHeaderWeights` (the values sum to 25). -/
def advancedHeaderWeights : List (String × ℚ) :=
  [("expect-ct", 5), ("cross-origin-embedder-policy", 4),
   ("cross-origin-opener-policy", 4), ("cross-origin-resource-policy", 4),
   ("report-to", 2), ("nel", 2), ("clear-site-data", 2), ("server-timing", 2)]

/-- `config.corsHeaderWeights` (the values sum to 15). -/
def corsHeaderWeights : List (String × ℚ) :=
  [("access-control-allow-origin", 5), ("access-control-allow-credentials", 4),
   ("access-control-allow-methods", 2), ("access-control-allow-headers", 2),
   ("access-control-expose-headers", 1), ("access-control-max-age", 1)]

/-- `config.misconfigurationPenalties`: the fraction of a header's weight lost
to a configuration issue of each severity. -/
def misconfigurationPenalties : Rating → ℚ
  | .high => 0.8
  | .medium => 0.6
  | .low => 0.3
  | .info => 0.1

/-- `config.dangerousHeaderPenalties`: per-finding score deduction used by the
evaluation engine for disclosure findings. -/
def dangerousHeaderPenalties : Rating → ℚ
  | .high => 4
  | .medium => 2
  | .low => 1
  | .info => 0.5

/-- `config.cookieSecurityPenalties`: per-issue score deduction used by the
evaluation engine for cookie findings. -/
def cookieSecurityPenalties : Rating → ℚ
  | .high => 4
  | .medium => 2
  | .low => 1
  | .info => 0.5

/-- `config.maxDangerousHeadersPenalty`. -/
def maxDangerousHeadersPenalty : ℚ := 10

/-- `config.maxCookieSecurityPenalty`. -/
def maxCookieSecurityPenalty : ℚ := 10

/-! ## Header rule registry (`api.js` / `new-index.js`, `createDefaultChecker`)

The default checker's `securityHeaders` object merges the essential, advanced
and CORS groups plus the `set-cookie` entry (the `cookieAnalyzer` key is
excluded); the two analyzers are wired separately.  Each entry is `{name,
description, recommendation, criticalRating, checkConfiguration?}`. -/

/-- A registry entry.  String-value validators are lifted to `HeaderValue`:
per the engine's input contract (spec §6) only `set-cookie` carries a
sequence of strings, so the lifted validators are only ever applied to
single-string values (theorems about full evaluations carry this
well-formedness hypothesis). -/
structure HeaderEntry where
  key : String
  name : String
  description : String
  recommendation : String
  criticalRating : Rating
  checkConfiguration : Option (HeaderValue → Bool → Option ConfigIssue) := none

/-- Lift a plain string validator into the registry validator shape. -/
def liftV (f : String → Option ConfigIssue) : HeaderValue → Bool → Option ConfigIssue :=
  fun v _ => match v with
    | .str s => f s
    | .strs _ => none

/-- `'strict-transport-security'` (`essential.js`). -/
def hstsEntry : HeaderEntry :=
  { key := "strict-transport-security", name := "Strict-Transport-Security (HSTS)",
    description := "Forces browsers to use HTTPS for the domain",
    recommendation := "Add \"Strict-Transport-Security: max-age=31536000; includeSubDomains; preload\" header",
    criticalRating := .high, checkConfiguration := some (liftV checkHstsConfiguration) }

/-- `'content-security-policy'` (`essential.js`). -/
def cspEntry : HeaderEntry :=
  { key := "content-security-policy", name := "Content-Security-Policy (CSP)",
    description := "Controls resources the browser is allowed to load",
    recommendation := "Implement a strict CSP policy to prevent XSS attacks",
    criticalRating := .high, checkConfiguration := some (liftV checkCspConfiguration) }

/-- `'x-content-type-options'` (`essential.js`, no validator). -/
def xctoEntry : HeaderEntry :=
  { key := "x-content-type-options", name := "X-Content-Type-Options",
    description := "Prevents MIME-sniffing attacks",
    recommendation := "Add \"X-Content-Type-Options: nosniff\" header",
    criticalRating := .medium }

/-- `'x-frame-options'` (`essential.js`). -/
def xfoEntry : HeaderEntry :=
  { key := "x-frame-options", name := "X-Frame-Options",
    description := "Prevents clickjacking attacks",
    recommendation := "Add \"X-Frame-Options: DENY\" or \"X-Frame-Options: SAMEORIGIN\" header",
    criticalRating := .medium,
    checkConfiguration := some (liftV checkXFrameOptionsConfiguration) }

/-- `'x-xss-protection'` (`essential.js`). -/
def xssEntry : HeaderEntry :=
  { key := "x-xss-protection", name := "X-XSS-Protection",
    description := "Enables XSS filtering in browsers",
    recommendation := "Add \"X-XSS-Protection: 1; mode=block\" header",
    criticalRating := .low,
    checkConfiguration := some (liftV checkXssProtectionConfiguration) }

/-- `'referrer-policy'` (`essential.js`). -/
def referrerPolicyEntry : HeaderEntry :=
  { key := "referrer-policy", name := "Referrer-Policy",
    description := "Controls how much referrer information should be included with requests",
    recommendation := "Add \"Referrer-Policy: strict-origin-when-cross-origin\" header",
    criticalRating := .low,
    checkConfiguration := some (liftV checkReferrerPolicyConfiguration) }

/-- `'permissions-policy'` (`essential.js`, no validator attached —
`checkPermissionsPolicyConfiguration` in `advanced.js` is dead code). -/
def permissionsPolicyEntry : HeaderEntry :=
  { key := "permissions-policy", name := "Permissions-Policy",
    description := "Controls which browser features can be used on the page",
    recommendation := "Implement a Permissions-Policy to restrict unnecessary browser features",
    criticalRating := .low }

/-- `'cache-control'` (`essential.js`, no validator). -/
def cacheControlEntry : HeaderEntry :=
  { key := "cache-control", name := "Cache-Control",
    description := "Controls how pages are cached by browsers and proxies",
    recommendation := "For sensitive pages, add \"Cache-Control: no-store, max-age=0\" header",
    criticalRating := .low }

/-- `'expect-ct'` (`advanced.js`). -/
def expectCtEntry : HeaderEntry :=
  { key := "expect-ct", name := "Expect-CT",
    description := "Allows sites to opt-in to Certificate Transparency reporting",
    recommendation := "Add \"Expect-CT: max-age=86400, enforce\" header",
    criticalRating := .medium,
    checkConfiguration := some (liftV checkExpectCtConfiguration) }

/-- `'report-to'` (`advanced.js`). -/
def reportToEntry : HeaderEntry :=
  { key := "report-to", name := "Report-To",
    description := "Specifies a server for browsers to send security reports to",
    recommendation := "Implement a Report-To header with valid JSON configuration",
    criticalRating := .low,
    checkConfiguration := some (liftV checkReportToConfiguration) }

/-- `'nel'` (`advanced.js`). -/
def nelEntry : HeaderEntry :=
  { key := "nel", name := "NEL (Network Error Logging)",
    description := "Enables reporting of network errors to help identify connectivity issues",
    recommendation := "Configure NEL header with appropriate report-to group",
    criticalRating := .low,
    checkConfiguration := some (liftV checkNelConfiguration) }

/-- `'clear-site-data'` (`advanced.js`). -/
def clearSiteDataEntry : HeaderEntry :=
  { key := "clear-site-data", name := "Clear-Site-Data",
    description := "Clears browsing data (cookies, storage, cache) associated with the site",
    recommendation := "Consider using this header for logout pages",
    criticalRating := .info,
    checkConfiguration := some (liftV checkClearSiteDataConfiguration) }

/-- `'cross-origin-embedder-policy'` (`advanced.js`). -/
def coepEntry : HeaderEntry :=
  { key := "cross-origin-embedder-policy", name := "Cross-Origin-Embedder-Policy",
    description := "Controls which cross-origin resources can be loaded",
    recommendation := "Add \"Cross-Origin-Embedder-Policy: require-corp\" header for isolation",
    criticalRating := .low,
    checkConfiguration := some (liftV checkCoepConfiguration) }

/-- `'cross-origin-opener-policy'` (`advanced.js`). -/
def coopEntry : HeaderEntry :=
  { key := "cross-origin-opener-policy", name := "Cross-Origin-Opener-Policy",
    description := "Controls sharing browsing context with cross-origin documents",
    recommendation := "Add \"Cross-Origin-Opener-Policy: same-origin\" header for isolation",
    criticalRating := .low,
    checkConfiguration := some (liftV checkCoopConfiguration) }

/-- `'cross-origin-resource-policy'` (`advanced.js`). -/
def corpEntry : HeaderEntry :=
  { key := "cross-origin-resource-policy", name := "Cross-Origin-Resource-Policy",
    description := "Controls which origins can load the resource",
    recommendation := "Add \"Cross-Origin-Resource-Policy: same-origin\" header",
    criticalRating := .low,
    checkConfiguration := some (liftV checkCorpConfiguration) }

/-- `'server-timing'` (`advanced.js`, no validator). -/
def serverTimingEntry : HeaderEntry :=
  { key := "server-timing", name := "Server-Timing",
    description := "Provides performance metrics to help diagnose site performance",
    recommendation := "Use Server-Timing to expose appropriate performance metrics",
    criticalRating := .info }

/-- `'access-control-allow-origin'` (`cors.js`). -/
def acAllowOriginEntry : HeaderEntry :=
  { key := "access-control-allow-origin", name := "Access-Control-Allow-Origin",
    description := "Specifies which origins can access the resource",
    recommendation := "Restrict to specific trusted origins instead of using a wildcard (*)",
    criticalRating := .medium,
    checkConfiguration := some (liftV checkAccessControlAllowOriginConfiguration) }

/-- `'access-control-allow-credentials'` (`cors.js`): the cross-header
validator receives the wildcard-origin flag. -/
def acAllowCredentialsEntry : HeaderEntry :=
  { key := "access-control-allow-credentials", name := "Access-Control-Allow-Credentials",
    description := "Indicates whether the response can be shared with requesting code from the given origin when credentials are provided",
    recommendation := "Only set to true if necessary, and ensure origins are restricted",
    criticalRating := .medium,
    checkConfiguration := some (fun v star => match v with
      | .str s => checkAccessControlAllowCredentialsConfiguration s star
      | .strs _ => none) }

/-- `'access-control-allow-methods'` (`cors.js`). -/
def acAllowMethodsEntry : HeaderEntry :=
  { key := "access-control-allow-methods", name := "Access-Control-Allow-Methods",
    description := "Specifies which HTTP methods are allowed when accessing the resource",
    recommendation := "Only allow necessary HTTP methods",
    criticalRating := .low,
    checkConfiguration := some (liftV checkAccessControlAllowMethodsConfiguration) }

/-- `'access-control-allow-headers'` (`cors.js`). -/
def acAllowHeadersEntry : HeaderEntry :=
  { key := "access-control-allow-headers", name := "Access-Control-Allow-Headers",
    description := "Specifies which HTTP headers can be used when making the actual request",
    recommendation := "Explicitly list allowed headers instead of using a wildcard",
    criticalRating := .low,
    checkConfiguration := some (liftV checkAccessControlAllowHeadersConfiguration) }

/-- `'access-control-expose-headers'` (`cors.js`). -/
def acExposeHeadersEntry : HeaderEntry :=
  { key := "access-control-expose-headers", name := "Access-Control-Expose-Headers",
    description := "Indicates which headers can be exposed as part of the response",
    recommendation := "Only expose necessary non-sensitive headers",
    criticalRating := .low,
    checkConfiguration := some (liftV checkAccessControlExposeHeadersConfiguration) }

/-- `'access-control-max-age'` (`cors.js`). -/
def acMaxAgeEntry : HeaderEntry :=
  { key := "access-control-max-age", name := "Access-Control-Max-Age",
    description := "Indicates how long the results of a preflight request can be cached",
    recommendation := "Set a reasonable max age (e.g., 7200 seconds / 2 hours)",
    criticalRating := .info,
    checkConfiguration := some (liftV checkAccessControlMaxAgeConfiguration) }

/-- `'set-cookie'` (`cookies.js`, `setCookieHeader`): the registry-level cookie
entry; its validator handles single or multiple cookie values itself. -/
def setCookieEntry : HeaderEntry :=
  { key := "set-cookie", name := "Set-Cookie",
    description := "Sets a cookie with security attributes",
    recommendation := "Ensure cookies use Secure, HttpOnly, and SameSite attributes",
    criticalRating := .high,
    checkConfiguration := some (fun v _ => checkSetCookieConfiguration v) }

/-- The default checker's registry, in object insertion order: the eight
essential entries, the eight advanced entries, the six CORS entries, then
`set-cookie`.  (Neither analyzer key is present, so the scanner's explicit
`cookieAnalyzer`/`dangerousHeaders` skip never fires.) -/
def registryEntries : List HeaderEntry :=
  [hstsEntry, cspEntry, xctoEntry, xfoEntry, xssEntry, referrerPolicyEntry,
   permissionsPolicyEntry, cacheControlEntry,
   expectCtEntry, reportToEntry, nelEntry, clearSiteDataEntry, coepEntry,
   coopEntry, corpEntry, serverTimingEntry,
   acAllowOriginEntry, acAllowCredentialsEntry, acAllowMethodsEntry,
   acAllowHeadersEntry, acExposeHeadersEntry, acMaxAgeEntry,
   setCookieEntry]

/-! ## Evaluation and scoring engine (`scanner.js`, `analyzeHeaders`) -/

/-- A header map: an association list of header name to value, as handed to
`analyzeHeaders` by the HTTP collaborator. -/
abbrev HeaderMap := List (String × HeaderValue)

/-- `normalizedHeaders[key] = value` on a JavaScript object: replace an
existing binding in place, otherwise append. -/
def setKey (m : HeaderMap) (k : String) (v : HeaderValue) : HeaderMap :=
  match m with
  | [] => [(k, v)]
  | (k', v') :: rest =>
      if k' = k then (k', v) :: rest else (k', v') :: setKey rest k v

/-- Normalization loop of `analyzeHeaders`:
`normalizedHeaders[key.toLowerCase()] = value` over the input entries. -/
def normalizeHeaders (raw : HeaderMap) : HeaderMap :=
  raw.foldl (fun acc p => setKey acc (toLowerStr p.1) p.2) []

/-- Property read `m[k]` on the normalized header object. -/
def hget : HeaderMap → String → Option HeaderValue
  | [], _ => none
  | (k', v) :: rest, k => if k' = k then some v else hget rest k

/-- Truthiness-filtered lookup: `none` when the key is absent **or** its value
is falsy — the two cases `if (!normalizedHeaders[header])` (and every other
truthiness guard in the engine) cannot distinguish. -/
def truthyVal (m : HeaderMap) (k : String) : Option HeaderValue :=
  match hget m k with
  | some v => if v.truthy then some v else none
  | none => none

/-- The strict-equality test `headers['access-control-allow-origin'] === '*'`
used by the Allow-Credentials validator (an absent key, an array value or any
other string compare unequal). -/
def isStar (m : HeaderMap) : Bool :=
  decide (hget m "access-control-allow-origin" = some (.str "*"))

/-- Weight and category assignment of `analyzeHeaders` (lines 100–114):
essential table first, then advanced, then CORS, else the default weight 5
and category `other`. -/
def weightAndCategory (header : String) : ℚ × String :=
  match essentialHeaderWeights.lookup header with
  | some w => (w, "essential")
  | none =>
    match advancedHeaderWeights.lookup header with
    | some w => (w, "advanced")
    | none =>
      match corsHeaderWeights.lookup header with
      | some w => (w, "cors")
      | none => (5, "other")

/-- `if (info.checkConfiguration) configIssue = info.checkConfiguration(value,
normalizedHeaders)`: run the entry's validator when it has one. -/
def applyValidator (e : HeaderEntry) (v : HeaderValue) (star : Bool) :
    Option ConfigIssue :=
  match e.checkConfiguration with
  | some f => f v star
  | none => none

/-- One iteration of the registry loop of `analyzeHeaders` (lines 116–179):
missing ⇒ `missing` finding (no points field); present with a validator issue
⇒ `misconfigured` finding earning `weight − weight×multiplier`; present
otherwise ⇒ `present` finding earning the full weight.  (Every issue literal
in the source carries a `criticalRating`, so the fallbacks
`configIssue.criticalRating || info.criticalRating` and `… || 0.5` always
take the issue's own rating and the table multiplier.) -/
def checkOne (tv : String → Option HeaderValue) (star : Bool)
    (e : HeaderEntry) : Finding :=
  let wc := weightAndCategory e.key
  match tv e.key with
  | none =>
      { header := e.name, status := "missing",
        description := some e.description,
        recommendation := some e.recommendation,
        criticalRating := e.criticalRating,
        category := some wc.2, weight := some wc.1 }
  | some v =>
      match applyValidator e v star with
      | some issue =>
          let penaltyMultiplier := misconfigurationPenalties issue.criticalRating
          { header := e.name, status := "misconfigured", value := some v,
            issue := some issue.issue,
            recommendation := some issue.recommendation,
            criticalRating := issue.criticalRating,
            category := some wc.2, weight := some wc.1,
            pointsEarned := some (wc.1 - wc.1 * penaltyMultiplier) }
      | none =>
          { header := e.name, status := "present", value := some v,
            criticalRating := e.criticalRating,
            category := some wc.2, weight := some wc.1,
            pointsEarned := some wc.1 }

/-- Per-category point accumulation of the registry loop: each
present/misconfigured finding adds its `pointsEarned` to its category's
earned total (a missing finding contributes nothing). -/
def earnedPoints (findings : List Finding) (category : String) : ℚ :=
  findings.foldl (fun acc f =>
    if f.category = some category then acc + f.pointsEarned.getD 0 else acc) 0

/-- `Object.values(table).reduce((a, b) => a + b, 0)`. -/
def sumValues (table : List (String × ℚ)) : ℚ :=
  table.foldl (fun acc p => acc + p.2) 0

/-- Disclosure penalty accumulation (`scanner.js` lines 193–201): the config
table `dangerousHeaderPenalties` keyed by each finding's rating (every value
in that table is truthy, so the in-code default-penalty fallback is dead). -/
def dangerousPenaltyOf (findings : List Finding) : ℚ :=
  findings.foldl (fun acc f => acc + dangerousHeaderPenalties f.criticalRating) 0

/-- Cookie penalty accumulation (`scanner.js` lines 217–234): per nested issue
when the finding has an `issues` list (all findings the cookie analyzer
produces do), else per the finding's own rating. -/
def cookiePenaltyOf (findings : List Finding) : ℚ :=
  findings.foldl (fun acc f =>
    match f.issues with
    | some issueList =>
        issueList.foldl (fun a i => a + cookieSecurityPenalties i.criticalRating) acc
    | none => acc + cookieSecurityPenalties f.criticalRating) 0

/-- `Math.round`: round half towards positive infinity. -/
def jsRound (q : ℚ) : Int := ⌊q + 1 / 2⌋

/-- `calculateGrade` (`scanner.js`), with the `config.scoringThresholds`. -/
def calculateGrade (score : Int) : String :=
  if score ≥ 90 then "A"
  else if score ≥ 80 then "B"
  else if score ≥ 70 then "C"
  else if score ≥ 60 then "D"
  else if score ≥ 50 then "E"
  else "F"

/-- The `scoreBreakdown` object of the scan result. -/
structure ScoreBreakdown where
  essentialEarned : ℚ
  essentialTotal : ℚ
  essentialWeighted : ℚ
  advancedEarned : ℚ
  advancedTotal : ℚ
  advancedWeighted : ℚ
  corsEarned : ℚ
  corsTotal : ℚ
  corsWeighted : ℚ
  dangerous : ℚ
  cookies : ℚ
deriving DecidableEq, Repr

/-- The part of a scan result computed from the normalized map (the result
additionally repeats the normalized headers; the timestamp and the
pass-through `url`/`statusCode` are not modelled). -/
structure CoreOutcome where
  findings : List Finding
  score : Int
  grade : String
  breakdown : ScoreBreakdown
deriving DecidableEq, Repr

/-- The cookie analyzer invocation (`scanner.js` lines 211–212): only when
`normalizedHeaders['set-cookie']` is truthy. -/
def cookieResultOf (tv : String → Option HeaderValue) : AnalyzerResult :=
  match tv "set-cookie" with
  | some v => cookieAnalyzer v
  | none => ⟨[], 0⟩

/-- The body of `analyzeHeaders` after normalization, parameterized by the
truthiness-filtered lookup `tv` and the wildcard-origin flag `star` (its only
two reads of the normalized map). -/
def analyzeCore (tv : String → Option HeaderValue) (star : Bool) : CoreOutcome :=
  let regFindings := registryEntries.map (checkOne tv star)
  let totalEssentialPoints :=
    let s := sumValues essentialHeaderWeights; if s = 0 then 60 else s
  let totalAdvancedPoints :=
    let s := sumValues advancedHeaderWeights; if s = 0 then 25 else s
  let totalCorsPoints :=
    let s := sumValues corsHeaderWeights; if s = 0 then 15 else s
  let earnedEssentialPoints := earnedPoints regFindings "essential"
  let earnedAdvancedPoints := earnedPoints regFindings "advanced"
  let earnedCorsPoints := earnedPoints regFindings "cors"
  let dangerousResults := checkDangerousHeaders tv
  let dangerousPenalty :=
    match dangerousResults.findings with
    | [] => 0
    | _ => min (dangerousPenaltyOf dangerousResults.findings) maxDangerousHeadersPenalty
  let cookieResults := cookieResultOf tv
  let cookiePenalty :=
    match cookieResults.findings with
    | [] => 0
    | _ => min (cookiePenaltyOf cookieResults.findings) maxCookieSecurityPenalty
  let essentialPercent :=
    if totalEssentialPoints > 0 then earnedEssentialPoints / totalEssentialPoints else 0
  let advancedPercent :=
    if totalAdvancedPoints > 0 then earnedAdvancedPoints / totalAdvancedPoints else 0
  let corsPercent :=
    if totalCorsPoints > 0 then earnedCorsPoints / totalCorsPoints else 0
  let essentialScore := essentialPercent * 60
  let advancedScore := advancedPercent * 25
  let corsScore := corsPercent * 15
  let rawScore := essentialScore + advancedScore + corsScore
                    - dangerousPenalty - cookiePenalty
  let score := max 0 (min 100 (jsRound rawScore))
  { findings := regFindings ++ dangerousResults.findings ++ cookieResults.findings,
    score := score,
    grade := calculateGrade score,
    breakdown :=
      { essentialEarned := earnedEssentialPoints, essentialTotal := totalEssentialPoints,
        essentialWeighted := essentialScore,
        advancedEarned := earnedAdvancedPoints, advancedTotal := totalAdvancedPoints,
        advancedWeighted := advancedScore,
        corsEarned := earnedCorsPoints, corsTotal := totalCorsPoints,
        corsWeighted := corsScore,
        dangerous := dangerousPenalty, cookies := cookiePenalty } }

/-- The full scan result (minus timestamp and the pass-through fields). -/
structure ScanResult where
  headers : HeaderMap
  findings : List Finding
  score : Int
  grade : String
  breakdown : ScoreBreakdown
deriving DecidableEq, Repr

/-- `analyzeHeaders` on an already-normalized map. -/
def analyzeNormalized (m : HeaderMap) : ScanResult :=
  let core := analyzeCore (truthyVal m) (isStar m)
  { headers := m, findings := core.findings, score := core.score,
    grade := core.grade, breakdown := core.breakdown }

/-- `SecurityHeaderChecker.analyzeHeaders` of the default checker: normalize
the header names to lowercase, then evaluate. -/
def analyzeHeaders (raw : HeaderMap) : ScanResult :=
  analyzeNormalized (normalizeHeaders raw)

/-- Input contract of the engine (spec §6): a value is a single string, or a
sequence of strings only under (any casing of) `Set-Cookie`. -/
def wfHeaders (raw : HeaderMap) : Bool :=
  raw.all (fun p => match p.2 with
    | .strs _ => toLowerStr p.1 == "set-cookie"
    | .str _ => true)

/-- Remove every binding of a key from a normalized map (the map "as if the
header were absent"). -/
def eraseKey (k : String) (m : HeaderMap) : HeaderMap :=
  m.filter (fun p => p.1 ≠ k)

/-- The map with all header names lower-cased in place — two raw maps "differ
only in the letter-casing of their header names" exactly when this
transformation sends them to the same list. -/
def lowerKeys (raw : HeaderMap) : HeaderMap :=
  raw.map (fun p => (toLowerStr p.1, p.2))

/-- The per-severity points table asserted by the specification for the
disclosure penalty (high=3, medium=2, low=1, info=0) — to be compared with
`dangerousHeaderPenalties` (4/2/1/0.5), the table the evaluation engine
actually applies.  (`disclosure.js` uses 3/2/1/0 only for its internal
`scoreAdjustment`, which the engine never reads.) -/
def specDisclosurePoints : Rating → ℚ
  | .high => 3
  | .medium => 2
  | .low => 1
  | .info => 0

/-- The disclosure penalty the specification's sentence describes, with a
given points table: per-severity points accumulated over the engine's
disclosure findings, capped at the configured maximum. -/
def specDisclosurePenalty (points : Rating → ℚ)
    (tv : String → Option HeaderValue) : ℚ :=
  min ((checkDangerousHeaders tv).findings.foldl
        (fun acc f => acc + points f.criticalRating) 0)
    maxDangerousHeadersPenalty

/-- The disclosure penalty recomputed directly from the static table and the
version heuristic (rather than from the findings list): per matched table row
its `dangerousHeaderPenalties` points, plus 2 points (the `medium` table
value) per version-heuristic finding, capped at the configured maximum. -/
def disclosurePenaltyFromTable (tv : String → Option HeaderValue) : ℚ :=
  min ((dangerousHeadersTable.foldl
         (fun acc d =>
           if (tv d.key).isSome then acc + dangerousHeaderPenalties d.criticalRating
           else acc) 0)
       + (if (tv "server").any versionHeaderTest then 2 else 0)
       + (if (tv "x-powered-by").any versionHeaderTest then 2 else 0))
    maxDangerousHeadersPenalty

/-- A header map on which every essential, advanced and CORS registry header
is present and passes its validator, with no disclosure or cookie findings —
the concrete instance of the specification's perfect-score property. -/
def perfectHeaderMap : HeaderMap :=
  [("strict-transport-security", .str "max-age=31536000; includeSubDomains; preload"),
   ("content-security-policy", .str "default-src a; script-src a; style-src a"),
   ("x-content-type-options", .str "nosniff"),
   ("x-frame-options", .str "DENY"),
   ("x-xss-protection", .str "1; mode=block"),
   ("referrer-policy", .str "strict-origin-when-cross-origin"),
   ("permissions-policy", .str "camera=()"),
   ("cache-control", .str "no-store"),
   ("expect-ct", .str "max-age=86400, enforce"),
   ("report-to", .str "\x7b\"endpoints\":[\"a\"],\"max_age\":86400\x7d"),
   ("nel", .str "\x7b\"report_to\":\"default\",\"max_age\":86400\x7d"),
   ("clear-site-data", .str "\"cache\""),
   ("cross-origin-embedder-policy", .str "require-corp"),
   ("cross-origin-opener-policy", .str "same-origin"),
   ("cross-origin-resource-policy", .str "same-origin"),
   ("server-timing", .str "total;dur=1"),
   ("access-control-allow-origin", .str "https://example.com"),
   ("access-control-allow-credentials", .str "false"),
   ("access-control-allow-methods", .str "GET, POST"),
   ("access-control-allow-headers", .str "Content-Type"),
   ("access-control-expose-headers", .str "Content-Length"),
   ("access-control-max-age", .str "7200")]

/-- The finding the cookie analyzer produces for the specification's concrete
example value `session=abc123; Secure`: one finding, two nested issues. -/
def sessionCookieFinding : Finding :=
  { header := "Cookie Security", status := "misconfigured",
    value := some (.str "session=abc123; Secure"),
    criticalRating := .high, cookie := some "session",
    issues := some
      [⟨"missing_httponly", "Missing HttpOnly attribute",
        "Add HttpOnly attribute to prevent JavaScript access to cookie", .high⟩,
       ⟨"missing_samesite", "Missing SameSite attribute",
        "Add SameSite=Strict or SameSite=Lax attribute to prevent CSRF attacks", .medium⟩],
    recommendation := some "Set appropriate security attributes for cookies" }

/-! ## Theorems -/

/-- A left fold that only ever adds to its accumulator can be started at zero
and shifted. -/
theorem foldl_init_add {α : Type} (body : ℚ → α → ℚ)
    (hbody : ∀ i x, body i x = i + body 0 x) :
    ∀ (l : List α) (i : ℚ), l.foldl body i = i + l.foldl body 0 := by
  intro l
  induction l with
  | nil => intro i; simp
  | cons x t ih =>
      intro i
      rw [List.foldl, List.foldl, ih (body i x), ih (body 0 x), hbody i x]
      ring

/-- C4: `checkHstsConfiguration` checks its conditions in fixed priority order
and returns on the first match — high when `max-age=` is absent, medium when
the captured `max-age` value is below 31536000, low when `includeSubDomains`
is absent, info when `preload` is absent, none otherwise; in particular
`max-age=31536000; includeSubDomains; preload` yields no issue and
`max-age=1000` yields the medium issue. -/
theorem checkHstsConfiguration_priority :
    (∀ value : String, value ≠ "" → containsSub value "max-age=" = false →
       checkHstsConfiguration value = some ⟨"HSTS header missing max-age directive",
         "Add max-age directive with a value of at least 31536000 (1 year)", .high⟩) ∧
    (∀ (value : String) (n : Nat), value ≠ "" → containsSub value "max-age=" = true →
       maxAgeCapture value = some n → n < 31536000 →
       checkHstsConfiguration value = some ⟨"HSTS max-age is less than 1 year",
         "Increase max-age to at least 31536000 (1 year)", .medium⟩) ∧
    (∀ value : String, value ≠ "" → containsSub value "max-age=" = true →
       (maxAgeCapture value).any (fun n => n < 31536000) = false →
       containsSub value "includeSubDomains" = false →
       checkHstsConfiguration value = some ⟨"HSTS missing includeSubDomains directive",
         "Add includeSubDomains directive to protect all subdomains", .low⟩) ∧
    (∀ value : String, value ≠ "" → containsSub value "max-age=" = true →
       (maxAgeCapture value).any (fun n => n < 31536000) = false →
       containsSub value "includeSubDomains" = true →
       containsSub value "preload" = false →
       checkHstsConfiguration value = some ⟨"HSTS missing preload directive",
         "Consider adding preload directive to be eligible for browser preload lists", .info⟩) ∧
    (∀ value : String, value ≠ "" → containsSub value "max-age=" = true →
       (maxAgeCapture value).any (fun n => n < 31536000) = false →
       containsSub value "includeSubDomains" = true →
       containsSub value "preload" = true →
       checkHstsConfiguration value = none) ∧
    checkHstsConfiguration "max-age=31536000; includeSubDomains; preload" = none ∧
    checkHstsConfiguration "max-age=1000" = some ⟨"HSTS max-age is less than 1 year",
      "Increase max-age to at least 31536000 (1 year)", .medium⟩ := by
  refine ⟨?_, ?_, ?_, ?_, ?_, by decide, by decide⟩
  · intro value h1 h2
    simp [checkHstsConfiguration, h1, h2]
  · intro value n h1 h2 hm hn
    simp [checkHstsConfiguration, h1, h2, hm, hn]
  · intro value h1 h2 hm h3
    simp [checkHstsConfiguration, h1, h2, hm, h3]
  · intro value h1 h2 hm h3 h4
    simp [checkHstsConfiguration, h1, h2, hm, h3, h4]
  · intro value h1 h2 hm h3 h4
    simp [checkHstsConfiguration, h1, h2, hm, h3, h4]

/-- C4 (witness): each branch of `checkHstsConfiguration_priority` applied at
a concrete header value. -/
theorem checkHstsConfiguration_priority_witness :
    checkHstsConfiguration "abc" = some ⟨"HSTS header missing max-age directive",
      "Add max-age directive with a value of at least 31536000 (1 year)", .high⟩ ∧
    checkHstsConfiguration "max-age=1000" = some ⟨"HSTS max-age is less than 1 year",
      "Increase max-age to at least 31536000 (1 year)", .medium⟩ ∧
    checkHstsConfiguration "max-age=31536000" = some ⟨"HSTS missing includeSubDomains directive",
      "Add includeSubDomains directive to protect all subdomains", .low⟩ ∧
    checkHstsConfiguration "max-age=31536000; includeSubDomains"
      = some ⟨"HSTS missing preload directive",
        "Consider adding preload directive to be eligible for browser preload lists", .info⟩ ∧
    checkHstsConfiguration "max-age=31536000; includeSubDomains; preload" = none :=
  ⟨checkHstsConfiguration_priority.1 "abc" (by decide) (by decide),
   checkHstsConfiguration_priority.2.1 "max-age=1000" 1000 (by decide) (by decide)
     (by decide) (by decide),
   checkHstsConfiguration_priority.2.2.1 "max-age=31536000" (by decide) (by decide)
     (by decide) (by decide),
   checkHstsConfiguration_priority.2.2.2.1 "max-age=31536000; includeSubDomains"
     (by decide) (by decide) (by decide) (by decide) (by decide),
   checkHstsConfiguration_priority.2.2.2.2.1 "max-age=31536000; includeSubDomains; preload"
     (by decide) (by decide) (by decide) (by decide) (by decide)⟩

/-- C7: the JSON-shaped validators never throw — a `JSON.parse` failure is
caught and reported as a low-severity "invalid JSON" issue (Report-To, NEL,
Clear-Site-Data); the Expect-CT validator performs no JSON parsing at all and
always returns one of its three fixed outcomes. -/
theorem jsonValidators_catch_invalid_json :
    (∀ value : String, parseJson value = none →
       checkReportToConfiguration value = some ⟨"Report-To header contains invalid JSON",
         "Ensure the Report-To header contains valid JSON", .low⟩) ∧
    (∀ value : String, parseJson value = none →
       checkNelConfiguration value = some ⟨"NEL header contains invalid JSON",
         "Ensure the NEL header contains valid JSON", .low⟩) ∧
    (∀ value : String, parseJson value = none →
       checkClearSiteDataConfiguration value = some ⟨"Clear-Site-Data header contains invalid JSON",
         "Ensure the Clear-Site-Data header contains valid JSON", .low⟩) ∧
    (∀ value : String, checkExpectCtConfiguration value = none
       ∨ checkExpectCtConfiguration value = some ⟨"Expect-CT header missing max-age directive",
           "Add max-age directive with an appropriate value", .medium⟩
       ∨ checkExpectCtConfiguration value = some ⟨"Expect-CT header missing enforce directive",
           "Add enforce directive to require Certificate Transparency compliance", .low⟩) := by
  refine ⟨?_, ?_, ?_, ?_⟩
  · intro value h; simp [checkReportToConfiguration, h]
  · intro value h; simp [checkNelConfiguration, h]
  · intro value h; simp [checkClearSiteDataConfiguration, h]
  · intro value
    by_cases h1 : containsSub value "max-age=" = true
    · by_cases h2 : containsSub value "enforce" = true
      · left; simp [checkExpectCtConfiguration, h1, h2]
      · right; right
        simp only [Bool.not_eq_true] at h2
        simp [checkExpectCtConfiguration, h1, h2]
    · right; left
      simp only [Bool.not_eq_true] at h1
      simp [checkExpectCtConfiguration, h1]

/-- C7 (witness): the three JSON validators applied to the non-JSON value
`{`, and the Expect-CT validator at a concrete value. -/
theorem jsonValidators_catch_invalid_json_witness :
    checkReportToConfiguration "\x7b" = some ⟨"Report-To header contains invalid JSON",
      "Ensure the Report-To header contains valid JSON", .low⟩ ∧
    checkNelConfiguration "\x7b" = some ⟨"NEL header contains invalid JSON",
      "Ensure the NEL header contains valid JSON", .low⟩ ∧
    checkClearSiteDataConfiguration "\x7b" = some ⟨"Clear-Site-Data header contains invalid JSON",
      "Ensure the Clear-Site-Data header contains valid JSON", .low⟩ ∧
    (checkExpectCtConfiguration "nonsense" = none
      ∨ checkExpectCtConfiguration "nonsense" = some ⟨"Expect-CT header missing max-age directive",
          "Add max-age directive with an appropriate value", .medium⟩
      ∨ checkExpectCtConfiguration "nonsense" = some ⟨"Expect-CT header missing enforce directive",
          "Add enforce directive to require Certificate Transparency compliance", .low⟩) :=
  ⟨jsonValidators_catch_invalid_json.1 "\x7b" rfl,
   jsonValidators_catch_invalid_json.2.1 "\x7b" rfl,
   jsonValidators_catch_invalid_json.2.2.1 "\x7b" rfl,
   jsonValidators_catch_invalid_json.2.2.2 "nonsense"⟩

/-- A cookie that does not even contain `samesite` (case-insensitively)
cannot match the `/SameSite=(Strict|Lax|None)/i` scan. -/
theorem sameSiteScan_eq_none (s : String) (h : containsSub s "samesite" = false) :
    sameSiteScan s.data = none := by
  suffices aux : ∀ l : List Char, containsSubL "samesite".data l = false →
      sameSiteScan l = none from aux s.data h
  intro l
  induction l with
  | nil => intro _; rfl
  | cons c rest ih =>
      intro h'
      simp only [containsSubL, Bool.or_eq_false_iff] at h'
      obtain ⟨h1, h2⟩ := h'
      have np : ∀ pat : List Char, "samesite".data <+: pat →
          pat.isPrefixOf (c :: rest) = false := by
        intro pat hp
        by_contra hcon
        rw [Bool.not_eq_false, List.isPrefixOf_iff_prefix] at hcon
        have : "samesite".data.isPrefixOf (c :: rest) = true :=
          List.isPrefixOf_iff_prefix.mpr (hp.trans hcon)
        rw [h1] at this
        exact Bool.false_ne_true this
      have h3 := np "samesite=strict".data (by decide)
      have h4 := np "samesite=lax".data (by decide)
      have h5 := np "samesite=none".data (by decide)
      simp only [sameSiteScan, h3, h4, h5]
      simpa using ih h2

/-- C5: every cookie whose name contains a sensitive keyword and which lacks
one of the Secure/HttpOnly/SameSite attributes receives a cookie-analyzer
finding rated `high` — the analyzer rates every misconfigured cookie finding
`high` regardless of the severities of its individual attribute issues. -/
theorem cookieAnalyzer_sensitive_cookie_flagged_high
    (cookies : List String) (c : String) (hc : c ∈ cookies)
    (hsens : ∃ kw ∈ sensitiveKeywords, containsSub (toLowerStr (cookieNameOf c)) kw = true)
    (hlack : containsSub c "Secure" = false ∨ containsSub c "HttpOnly" = false
       ∨ containsSub (toLowerStr c) "samesite" = false) :
    ∃ f ∈ (cookieAnalyzer (.strs cookies)).findings,
      f.cookie = some (cookieNameOf c) ∧ f.value = some (.str c)
        ∧ f.criticalRating = .high ∧ f.status = "misconfigured" := by
  have hne : (cookieAnalyzerIssuesFor c).1 ≠ [] := by
    rcases hlack with h | h | h
    · simp [cookieAnalyzerIssuesFor, h]
    · simp [cookieAnalyzerIssuesFor, h]
    · have hss := sameSiteScan_eq_none (toLowerStr c) h
      simp [cookieAnalyzerIssuesFor, hss]
  refine ⟨{ header := "Cookie Security", status := "misconfigured",
            cookie := some (cookieNameOf c), value := some (.str c),
            issues := some (cookieAnalyzerIssuesFor c).1,
            recommendation := some "Set appropriate security attributes for cookies",
            criticalRating := .high }, ?_, rfl, rfl, rfl, rfl⟩
  simp only [cookieAnalyzer, List.mem_filterMap]
  refine ⟨c, hc, ?_⟩
  simp [hne]

/-- C5 (witness): a sensitive cookie (`auth_token`, keywords `auth` and
`token`) covered by Secure and HttpOnly but lacking SameSite. -/
theorem cookieAnalyzer_sensitive_cookie_flagged_high_witness :
    ∃ f ∈ (cookieAnalyzer (.strs ["auth_token=1; Secure; HttpOnly"])).findings,
      f.cookie = some (cookieNameOf "auth_token=1; Secure; HttpOnly")
        ∧ f.value = some (.str "auth_token=1; Secure; HttpOnly")
        ∧ f.criticalRating = .high ∧ f.status = "misconfigured" :=
  cookieAnalyzer_sensitive_cookie_flagged_high
    ["auth_token=1; Secure; HttpOnly"] "auth_token=1; Secure; HttpOnly"
    (by decide) (by decide) (by decide)

/-- C6: the cookie analyzer emits at most one finding per cookie; every
emitted finding is a `misconfigured` finding carrying its per-attribute
issues as a non-empty nested list; and the single value
`session=abc123; Secure` yields exactly one finding with two sub-issues
(missing HttpOnly at high severity, missing SameSite at medium severity). -/
theorem cookieAnalyzer_one_finding_per_cookie :
    (∀ cookies : List String,
       (cookieAnalyzer (.strs cookies)).findings.length ≤ cookies.length) ∧
    (∀ cookies : List String, ∀ f ∈ (cookieAnalyzer (.strs cookies)).findings,
       f.status = "misconfigured" ∧
       ∃ issueList, f.issues = some issueList ∧ issueList ≠ []) ∧
    (cookieAnalyzer (.str "session=abc123; Secure")).findings = [sessionCookieFinding] := by
  refine ⟨?_, ?_, by decide⟩
  · intro cookies
    simpa [cookieAnalyzer] using List.length_filterMap_le _ cookies
  · intro cookies f hf
    simp only [cookieAnalyzer, List.mem_filterMap] at hf
    obtain ⟨c, _, hfc⟩ := hf
    by_cases h : (cookieAnalyzerIssuesFor c).1 = []
    · simp [h] at hfc
    · rw [if_neg h] at hfc
      obtain rfl := Option.some.inj hfc
      exact ⟨rfl, (cookieAnalyzerIssuesFor c).1, rfl, h⟩

/-- C6 (witness): the theorem's conjuncts applied at the concrete cookie list
`["session=abc123; Secure"]` and its concrete finding. -/
theorem cookieAnalyzer_one_finding_per_cookie_witness :
    ((cookieAnalyzer (.strs ["session=abc123; Secure"])).findings.length ≤ 1) ∧
    (sessionCookieFinding.status = "misconfigured" ∧
      ∃ issueList, sessionCookieFinding.issues = some issueList ∧ issueList ≠ []) :=
  ⟨cookieAnalyzer_one_finding_per_cookie.1 ["session=abc123; Secure"],
   cookieAnalyzer_one_finding_per_cookie.2.1 ["session=abc123; Secure"]
     sessionCookieFinding (by decide)⟩

/-- C2: a present registry header whose validator reports an issue of severity
`s` yields a `misconfigured` finding earning `weight × (1 −
penaltyMultiplier s)`; with no issue it yields a `present` finding earning
the full weight. -/
theorem checkOne_partial_credit (m : HeaderMap) (e : HeaderEntry)
    (he : e ∈ registryEntries) (v : HeaderValue)
    (hv : truthyVal m e.key = some v) :
    (∀ issue : ConfigIssue, applyValidator e v (isStar m) = some issue →
       checkOne (truthyVal m) (isStar m) e =
         { header := e.name, status := "misconfigured", value := some v,
           issue := some issue.issue, recommendation := some issue.recommendation,
           criticalRating := issue.criticalRating,
           category := some (weightAndCategory e.key).2,
           weight := some (weightAndCategory e.key).1,
           pointsEarned := some ((weightAndCategory e.key).1
             * (1 - misconfigurationPenalties issue.criticalRating)) }) ∧
    (applyValidator e v (isStar m) = none →
       checkOne (truthyVal m) (isStar m) e =
         { header := e.name, status := "present", value := some v,
           criticalRating := e.criticalRating,
           category := some (weightAndCategory e.key).2,
           weight := some (weightAndCategory e.key).1,
           pointsEarned := some (weightAndCategory e.key).1 }) := by
  constructor
  · intro issue hi
    rw [mul_one_sub]
    simp [checkOne, hv, hi]
  · intro hi
    simp [checkOne, hv, hi]

/-- C2 (witness): HSTS present with `max-age=1000` — a medium issue worth
60 % of the 15-point weight. -/
theorem checkOne_partial_credit_witness :
    checkOne (truthyVal [("strict-transport-security", HeaderValue.str "max-age=1000")])
        (isStar [("strict-transport-security", HeaderValue.str "max-age=1000")]) hstsEntry
      = { header := hstsEntry.name, status := "misconfigured",
          value := some (.str "max-age=1000"),
          issue := some "HSTS max-age is less than 1 year",
          recommendation := some "Increase max-age to at least 31536000 (1 year)",
          criticalRating := .medium,
          category := some (weightAndCategory "strict-transport-security").2,
          weight := some (weightAndCategory "strict-transport-security").1,
          pointsEarned := some ((weightAndCategory "strict-transport-security").1
            * (1 - misconfigurationPenalties .medium)) } :=
  (checkOne_partial_credit [("strict-transport-security", HeaderValue.str "max-age=1000")]
      hstsEntry (by simp [registryEntries]) (.str "max-age=1000") (by decide)).1
    ⟨"HSTS max-age is less than 1 year",
     "Increase max-age to at least 31536000 (1 year)", .medium⟩
    (by decide)

/-- C3: for every well-formed input header map the final score is clamped
into `[0, 100]` (integrality is by construction: `Math.round` produces the
integer the model carries as `ℤ`), whatever the raw weighted arithmetic
produced. -/
theorem analyzeHeaders_score_bounds (raw : HeaderMap) (hwf : wfHeaders raw = true) :
    0 ≤ (analyzeHeaders raw).score ∧ (analyzeHeaders raw).score ≤ 100 := by
  have h : ∀ (tv : String → Option HeaderValue) (star : Bool),
      0 ≤ (analyzeCore tv star).score ∧ (analyzeCore tv star).score ≤ 100 := by
    intro tv star
    simp only [analyzeCore]
    exact ⟨le_max_left 0 _, max_le (by norm_num) (min_le_left _ _)⟩
  show 0 ≤ (analyzeCore (truthyVal (normalizeHeaders raw))
        (isStar (normalizeHeaders raw))).score ∧
      (analyzeCore (truthyVal (normalizeHeaders raw))
        (isStar (normalizeHeaders raw))).score ≤ 100
  exact h _ _

/-- C3 (witness): the empty header map. -/
theorem analyzeHeaders_score_bounds_witness :
    0 ≤ (analyzeHeaders []).score ∧ (analyzeHeaders []).score ≤ 100 :=
  analyzeHeaders_score_bounds [] (by decide)

/-- C9: two input maps whose header names agree up to letter casing (and whose
values agree exactly) produce identical scan results — every lookup is done
on the lower-cased names. -/
theorem analyzeHeaders_case_insensitive (h1 h2 : HeaderMap)
    (h : lowerKeys h1 = lowerKeys h2) :
    analyzeHeaders h1 = analyzeHeaders h2 := by
  have hn : normalizeHeaders h1 = normalizeHeaders h2 := by
    have aux : ∀ (l1 l2 : HeaderMap) (acc : HeaderMap), lowerKeys l1 = lowerKeys l2 →
        l1.foldl (fun acc p => setKey acc (toLowerStr p.1) p.2) acc
          = l2.foldl (fun acc p => setKey acc (toLowerStr p.1) p.2) acc := by
      intro l1
      induction l1 with
      | nil =>
          intro l2 acc hh
          cases l2 with
          | nil => rfl
          | cons q t => simp [lowerKeys] at hh
      | cons p t ih =>
          intro l2 acc hh
          cases l2 with
          | nil => simp [lowerKeys] at hh
          | cons q t2 =>
              simp only [lowerKeys, List.map_cons, List.cons.injEq, Prod.mk.injEq] at hh
              obtain ⟨⟨hk, hv⟩, ht⟩ := hh
              simp only [List.foldl]
              rw [hk, hv]
              exact ih t2 _ (by simpa [lowerKeys] using ht)
    exact aux h1 h2 [] h
  unfold analyzeHeaders
  rw [hn]

/-- C9 (witness): `Server` versus `SERVER`. -/
theorem analyzeHeaders_case_insensitive_witness :
    analyzeHeaders [("Server", HeaderValue.str "nginx")]
      = analyzeHeaders [("SERVER", HeaderValue.str "nginx")] :=
  analyzeHeaders_case_insensitive _ _ (by decide)

/-- Reading the erased map: the erased key is gone, every other key is
untouched. -/
theorem hget_eraseKey (k : String) (m : HeaderMap) (k' : String) :
    hget (eraseKey k m) k' = if k' = k then none else hget m k' := by
  induction m with
  | nil => by_cases h : k' = k <;> simp [eraseKey, hget, h]
  | cons p t ih =>
      obtain ⟨pk, pv⟩ := p
      by_cases hpk : pk = k
      · rw [show eraseKey k ((pk, pv) :: t) = eraseKey k t by simp [eraseKey, hpk], ih]
        by_cases h : k' = k
        · simp [h]
        · have hp' : ¬ (pk = k') := by rw [hpk]; exact fun hh => h hh.symm
          simp [hget, h, hp']
      · rw [show eraseKey k ((pk, pv) :: t) = (pk, pv) :: eraseKey k t by
            simp [eraseKey, hpk]]
        by_cases hpk' : pk = k'
        · have h : ¬ (k' = k) := fun hh => hpk ((hpk'.trans hh))
          simp [hget, hpk', h]
        · simp only [hget, if_neg hpk']
          rw [ih]

/-- Erasing a key whose value is falsy does not change any truthiness-filtered
lookup. -/
theorem truthyVal_eraseKey (k : String) (m : HeaderMap)
    (hk : truthyVal m k = none) :
    truthyVal (eraseKey k m) = truthyVal m := by
  funext k'
  by_cases h : k' = k
  · rw [show truthyVal (eraseKey k m) k' = none by
        simp [truthyVal, hget_eraseKey, h], h, hk]
  · simp [truthyVal, hget_eraseKey, h]

/-- Erasing a key bound to the empty string does not change the
wildcard-origin strict-equality test. -/
theorem isStar_eraseKey (k : String) (m : HeaderMap)
    (hk : hget m k = some (HeaderValue.str "")) :
    isStar (eraseKey k m) = isStar m := by
  by_cases h : "access-control-allow-origin" = k
  · have hm : hget m "access-control-allow-origin" = some (HeaderValue.str "") := by
      rw [h]; exact hk
    simp [isStar, hget_eraseKey, h, hm, hk]
  · simp [isStar, hget_eraseKey, h]

/-- C10: a registry header bound to the empty string (the only falsy string
value) is classified exactly as if absent — the scan's findings, score and
grade equal those on the map with the binding erased, and the header's own
registry finding is the `missing` finding, whose construction never consults
the validator and carries no points. -/
theorem emptyValue_treated_as_missing (m : HeaderMap) (k : String)
    (hwf : wfHeaders m = true)
    (hk : hget m k = some (HeaderValue.str "")) :
    (analyzeNormalized m).findings = (analyzeNormalized (eraseKey k m)).findings ∧
    (analyzeNormalized m).score = (analyzeNormalized (eraseKey k m)).score ∧
    (analyzeNormalized m).grade = (analyzeNormalized (eraseKey k m)).grade ∧
    (∀ e ∈ registryEntries, e.key = k →
       checkOne (truthyVal m) (isStar m) e =
         { header := e.name, status := "missing",
           description := some e.description, recommendation := some e.recommendation,
           criticalRating := e.criticalRating,
           category := some (weightAndCategory e.key).2,
           weight := some (weightAndCategory e.key).1 }) := by
  have htv : truthyVal m k = none := by
    simp [truthyVal, hk, HeaderValue.truthy]
  have h1 : truthyVal (eraseKey k m) = truthyVal m := truthyVal_eraseKey k m htv
  have h2 : isStar (eraseKey k m) = isStar m := isStar_eraseKey k m hk
  have hcore : analyzeCore (truthyVal (eraseKey k m)) (isStar (eraseKey k m))
      = analyzeCore (truthyVal m) (isStar m) := by rw [h1, h2]
  refine ⟨?_, ?_, ?_, ?_⟩
  · show (analyzeCore (truthyVal m) (isStar m)).findings
        = (analyzeCore (truthyVal (eraseKey k m)) (isStar (eraseKey k m))).findings
    rw [hcore]
  · show (analyzeCore (truthyVal m) (isStar m)).score
        = (analyzeCore (truthyVal (eraseKey k m)) (isStar (eraseKey k m))).score
    rw [hcore]
  · show (analyzeCore (truthyVal m) (isStar m)).grade
        = (analyzeCore (truthyVal (eraseKey k m)) (isStar (eraseKey k m))).grade
    rw [hcore]
  · intro e _ hek
    have hnone : truthyVal m e.key = none := by rw [hek]; exact htv
    simp [checkOne, hnone]

/-- C10 (witness): `x-frame-options` bound to the empty string. -/
theorem emptyValue_treated_as_missing_witness :
    (analyzeNormalized [("x-frame-options", HeaderValue.str "")]).findings
        = (analyzeNormalized (eraseKey "x-frame-options"
            [("x-frame-options", HeaderValue.str "")])).findings ∧
    (analyzeNormalized [("x-frame-options", HeaderValue.str "")]).score
        = (analyzeNormalized (eraseKey "x-frame-options"
            [("x-frame-options", HeaderValue.str "")])).score ∧
    checkOne (truthyVal [("x-frame-options", HeaderValue.str "")])
        (isStar [("x-frame-options", HeaderValue.str "")]) xfoEntry
      = { header := xfoEntry.name, status := "missing",
          description := some xfoEntry.description,
          recommendation := some xfoEntry.recommendation,
          criticalRating := xfoEntry.criticalRating,
          category := some (weightAndCategory xfoEntry.key).2,
          weight := some (weightAndCategory xfoEntry.key).1 } :=
  ⟨(emptyValue_treated_as_missing [("x-frame-options", HeaderValue.str "")]
      "x-frame-options" (by decide) (by decide)).1,
   (emptyValue_treated_as_missing [("x-frame-options", HeaderValue.str "")]
      "x-frame-options" (by decide) (by decide)).2.1,
   (emptyValue_treated_as_missing [("x-frame-options", HeaderValue.str "")]
      "x-frame-options" (by decide) (by decide)).2.2.2 xfoEntry
     (by simp [registryEntries]) rfl⟩

/-- Peeling one finding off the engine's disclosure-penalty accumulation. -/
theorem dangerousPenaltyOf_cons (f : Finding) (fs : List Finding) :
    dangerousPenaltyOf (f :: fs)
      = dangerousHeaderPenalties f.criticalRating + dangerousPenaltyOf fs := by
  have hbody : ∀ (i : ℚ) (x : Finding),
      i + dangerousHeaderPenalties x.criticalRating
        = i + (0 + dangerousHeaderPenalties x.criticalRating) := by
    intro i x; ring
  unfold dangerousPenaltyOf
  rw [List.foldl, foldl_init_add _ hbody]
  ring

/-- The disclosure-penalty accumulation splits over list concatenation. -/
theorem dangerousPenaltyOf_append (l1 l2 : List Finding) :
    dangerousPenaltyOf (l1 ++ l2) = dangerousPenaltyOf l1 + dangerousPenaltyOf l2 := by
  induction l1 with
  | nil =>
      show dangerousPenaltyOf l2 = dangerousPenaltyOf [] + dangerousPenaltyOf l2
      unfold dangerousPenaltyOf
      simp
  | cons f t ih =>
      rw [List.cons_append, dangerousPenaltyOf_cons, dangerousPenaltyOf_cons, ih]
      ring

/-- The penalty accumulated over the table findings equals the fold over the
static disclosure table itself. -/
theorem dangerousPenaltyOf_tableFindings (tv : String → Option HeaderValue) :
    ∀ tbl : List DangerEntry,
      dangerousPenaltyOf (tbl.filterMap (fun info => (tv info.key).map (dangerFinding info)))
        = tbl.foldl (fun acc d =>
            if (tv d.key).isSome then acc + dangerousHeaderPenalties d.criticalRating
            else acc) 0 := by
  intro tbl
  induction tbl with
  | nil => rfl
  | cons d t ih =>
      have hbody : ∀ (i : ℚ) (x : DangerEntry),
          (if (tv x.key).isSome then i + dangerousHeaderPenalties x.criticalRating else i)
            = i + (if (tv x.key).isSome
                then (0:ℚ) + dangerousHeaderPenalties x.criticalRating else 0) := by
        intro i x
        by_cases hh : (tv x.key).isSome <;> simp [hh]
      cases htv : tv d.key with
      | none =>
          rw [List.filterMap_cons, List.foldl, foldl_init_add _ hbody]
          simp [htv, ih]
      | some v =>
          rw [List.filterMap_cons, List.foldl, foldl_init_add _ hbody, htv]
          simp only [Option.map_some']
          rw [dangerousPenaltyOf_cons, ih]
          simp only [dangerFinding, Option.isSome_some, if_true]
          ring

/-- The penalty contribution of one version-heuristic finding list: 2 points
(the `medium` table value) when the heuristic fires, otherwise nothing. -/
theorem dangerousPenaltyOf_versionFindings (tv : String → Option HeaderValue)
    (key disp desc reco : String) :
    dangerousPenaltyOf (versionFindingsFor tv key disp desc reco)
      = if (tv key).any versionHeaderTest then 2 else 0 := by
  unfold versionFindingsFor
  cases htv : tv key with
  | none => simp [dangerousPenaltyOf]
  | some v =>
      by_cases hv : versionHeaderTest v
      · simp only [hv, if_pos]
        rw [dangerousPenaltyOf_cons]
        simp [dangerousPenaltyOf, dangerousHeaderPenalties, htv, hv]
      · simp [hv, dangerousPenaltyOf, htv]

/-- The disclosure penalty the evaluation engine subtracts, computed from the
static table and version heuristic with the `dangerousHeaderPenalties`
config values and the 10-point cap. -/
theorem breakdownDangerous_eq (tv : String → Option HeaderValue) (star : Bool) :
    (analyzeCore tv star).breakdown.dangerous = disclosurePenaltyFromTable tv := by
  have hmin : ∀ fs : List Finding,
      (match fs with
       | [] => (0:ℚ)
       | _ => min (dangerousPenaltyOf fs) maxDangerousHeadersPenalty)
        = min (dangerousPenaltyOf fs) maxDangerousHeadersPenalty := by
    intro fs
    cases fs with
    | nil =>
        show (0:ℚ) = min (dangerousPenaltyOf []) maxDangerousHeadersPenalty
        rw [show dangerousPenaltyOf [] = 0 from rfl]
        rw [min_eq_left (by norm_num [maxDangerousHeadersPenalty])]
    | cons f t => rfl
  show (match (checkDangerousHeaders tv).findings with
        | [] => (0:ℚ)
        | _ => min (dangerousPenaltyOf (checkDangerousHeaders tv).findings)
            maxDangerousHeadersPenalty)
      = disclosurePenaltyFromTable tv
  rw [hmin]
  show min (dangerousPenaltyOf
      ((dangerousHeadersTable.filterMap (fun info => (tv info.key).map (dangerFinding info)))
        ++ versionFindingsFor tv "server" "Server"
             "Server header contains version information"
             "Remove version information from Server header"
        ++ versionFindingsFor tv "x-powered-by" "X-Powered-By"
             "X-Powered-By header contains version information"
             "Remove version information from X-Powered-By header"))
      maxDangerousHeadersPenalty
    = disclosurePenaltyFromTable tv
  rw [dangerousPenaltyOf_append, dangerousPenaltyOf_append,
      dangerousPenaltyOf_tableFindings, dangerousPenaltyOf_versionFindings,
      dangerousPenaltyOf_versionFindings]
  rfl

/-- C1 (counterexample): on the map whose only header is the info-severity
disclosure header `X-Varnish`, the engine's disclosure penalty is ½ point
(the `dangerousHeaderPenalties.info` value), while the spec's per-severity
points table (high=3, medium=2, low=1, info=0) would accumulate 0. -/
theorem disclosure_penalty_spec_points_counterexample :
    (analyzeNormalized [("x-varnish", HeaderValue.str "nginx-cache")]).breakdown.dangerous
        = 1 / 2 ∧
    specDisclosurePenalty specDisclosurePoints
        (truthyVal [("x-varnish", HeaderValue.str "nginx-cache")]) = 0 ∧
    ¬ ((1 : ℚ) / 2 = 0) := by
  refine ⟨?_, ?_, by norm_num⟩
  · show (analyzeCore (truthyVal [("x-varnish", HeaderValue.str "nginx-cache")])
        (isStar [("x-varnish", HeaderValue.str "nginx-cache")])).breakdown.dangerous = 1 / 2
    rw [breakdownDangerous_eq]
    have htv : ∀ k : String,
        truthyVal [("x-varnish", HeaderValue.str "nginx-cache")] k
          = if "x-varnish" = k then some (HeaderValue.str "nginx-cache") else none := by
      intro k
      by_cases h : "x-varnish" = k <;>
        simp [truthyVal, hget, HeaderValue.truthy, h]
    simp [disclosurePenaltyFromTable, dangerousHeadersTable, htv,
      dangerousHeaderPenalties, maxDangerousHeadersPenalty, versionHeaderTest]
    norm_num
  · have hf : (checkDangerousHeaders
        (truthyVal [("x-varnish", HeaderValue.str "nginx-cache")])).findings
      = [{ header := "X-Varnish", status := "dangerous",
           value := some (HeaderValue.str "nginx-cache"),
           description := some "Reveals Varnish Cache is in use",
           recommendation := some "Consider removing the X-Varnish header",
           criticalRating := .info }] := by decide
    rw [specDisclosurePenalty, hf]
    norm_num [specDisclosurePoints, maxDangerousHeadersPenalty]

/-- C1 (amended): the engine accumulates the disclosure penalty with the
configured `dangerousHeaderPenalties` per-severity points — high=4, medium=2,
low=1, info=0.5, and 2 points per version-heuristic finding — caps the sum at
the configured maximum of 10, and subtracts the capped penalty from the
category-weighted subtotal before rounding and clamping the final score.
(The analyzer-internal 3/2/1/0 `scoreAdjustment` is never read by the
engine.) -/
theorem disclosure_penalty_uses_config_table (m : HeaderMap)
    (hwf : wfHeaders m = true) :
    (analyzeNormalized m).breakdown.dangerous
        = disclosurePenaltyFromTable (truthyVal m) ∧
    (analyzeNormalized m).score
        = max 0 (min 100 (jsRound ((analyzeNormalized m).breakdown.essentialWeighted
            + (analyzeNormalized m).breakdown.advancedWeighted
            + (analyzeNormalized m).breakdown.corsWeighted
            - (analyzeNormalized m).breakdown.dangerous
            - (analyzeNormalized m).breakdown.cookies))) := by
  constructor
  · show (analyzeCore (truthyVal m) (isStar m)).breakdown.dangerous
        = disclosurePenaltyFromTable (truthyVal m)
    exact breakdownDangerous_eq _ _
  · rfl

/-- C1 (witness): the amended theorem applied at the `X-Varnish`-only map. -/
theorem disclosure_penalty_uses_config_table_witness :
    (analyzeNormalized [("x-varnish", HeaderValue.str "nginx-cache")]).breakdown.dangerous
        = disclosurePenaltyFromTable
            (truthyVal [("x-varnish", HeaderValue.str "nginx-cache")]) ∧
    (analyzeNormalized [("x-varnish", HeaderValue.str "nginx-cache")]).score
        = max 0 (min 100 (jsRound
            ((analyzeNormalized [("x-varnish", HeaderValue.str "nginx-cache")]).breakdown.essentialWeighted
            + (analyzeNormalized [("x-varnish", HeaderValue.str "nginx-cache")]).breakdown.advancedWeighted
            + (analyzeNormalized [("x-varnish", HeaderValue.str "nginx-cache")]).breakdown.corsWeighted
            - (analyzeNormalized [("x-varnish", HeaderValue.str "nginx-cache")]).breakdown.dangerous
            - (analyzeNormalized [("x-varnish", HeaderValue.str "nginx-cache")]).breakdown.cookies))) :=
  disclosure_penalty_uses_config_table
    [("x-varnish", HeaderValue.str "nginx-cache")] (by decide)

/-- Every finding the registry loop pushes carries its entry's category. -/
theorem checkOne_category (tv : String → Option HeaderValue) (star : Bool)
    (e : HeaderEntry) :
    (checkOne tv star e).category = some (weightAndCategory e.key).2 := by
  cases htv : tv e.key with
  | none => simp [checkOne, htv]
  | some v =>
      cases hav : applyValidator e v star with
      | none => simp [checkOne, htv, hav]
      | some issue => simp [checkOne, htv, hav]

/-- A registry finding with status `present` earned the entry's full weight. -/
theorem checkOne_pointsEarned_of_present (tv : String → Option HeaderValue)
    (star : Bool) (e : HeaderEntry)
    (h : (checkOne tv star e).status = "present") :
    (checkOne tv star e).pointsEarned = some (weightAndCategory e.key).1 := by
  cases htv : tv e.key with
  | none => rw [show (checkOne tv star e).status = "missing" by simp [checkOne, htv]] at h; simp at h
  | some v =>
      cases hav : applyValidator e v star with
      | none => simp [checkOne, htv, hav]
      | some issue =>
          rw [show (checkOne tv star e).status = "misconfigured" by
            simp [checkOne, htv, hav]] at h
          simp at h

/-- Peeling one finding off the per-category earned-points accumulation. -/
theorem earnedPoints_cons (f : Finding) (fs : List Finding) (cat : String) :
    earnedPoints (f :: fs) cat
      = (if f.category = some cat then f.pointsEarned.getD 0 else 0)
          + earnedPoints fs cat := by
  have hbody : ∀ (i : ℚ) (x : Finding),
      (if x.category = some cat then i + x.pointsEarned.getD 0 else i)
        = i + (if x.category = some cat then (0:ℚ) + x.pointsEarned.getD 0 else 0) := by
    intro i x
    by_cases hh : x.category = some cat <;> simp [hh]
  unfold earnedPoints
  rw [List.foldl, foldl_init_add _ hbody]
  by_cases hh : f.category = some cat <;> simp [hh]

/-- When every scored registry header is present with no validator issue, each
category's earned points equal the category's total registry weight. -/
theorem earnedPoints_full (tv : String → Option HeaderValue) (star : Bool)
    (cat : String) (hcat : cat ≠ "other") :
    ∀ es : List HeaderEntry,
      (∀ e ∈ es, (weightAndCategory e.key).2 ≠ "other" →
          (checkOne tv star e).status = "present") →
      earnedPoints (es.map (checkOne tv star)) cat
        = es.foldl (fun acc e =>
            if (weightAndCategory e.key).2 = cat then acc + (weightAndCategory e.key).1
            else acc) 0 := by
  intro es
  induction es with
  | nil => intro _; rfl
  | cons e t ih =>
      intro h
      have hbody : ∀ (i : ℚ) (x : HeaderEntry),
          (if (weightAndCategory x.key).2 = cat then i + (weightAndCategory x.key).1 else i)
            = i + (if (weightAndCategory x.key).2 = cat
                then (0:ℚ) + (weightAndCategory x.key).1 else 0) := by
        intro i x
        by_cases hh : (weightAndCategory x.key).2 = cat <;> simp [hh]
      rw [List.map_cons, earnedPoints_cons, List.foldl, foldl_init_add _ hbody,
          ih (fun x hx hcx => h x (List.mem_cons_of_mem _ hx) hcx)]
      have hhead : (if (checkOne tv star e).category = some cat
            then (checkOne tv star e).pointsEarned.getD 0 else 0)
          = (if (weightAndCategory e.key).2 = cat
            then (0:ℚ) + (weightAndCategory e.key).1 else 0) := by
        rw [checkOne_category]
        by_cases hc : (weightAndCategory e.key).2 = cat
        · have hne : (weightAndCategory e.key).2 ≠ "other" := by
            rw [hc]; exact hcat
          have hpe := checkOne_pointsEarned_of_present tv star e
            (h e (List.mem_cons_self e t) hne)
          simp [hc, hpe]
        · simp [hc]
      rw [hhead]

/-- The total essential weight carried by the registry (the sum of the
essential table, 75). -/
theorem registry_weight_essential :
    registryEntries.foldl (fun acc e =>
      if (weightAndCategory e.key).2 = "essential" then acc + (weightAndCategory e.key).1
      else acc) 0 = 75 := by
  simp [registryEntries, hstsEntry, cspEntry, xctoEntry, xfoEntry, xssEntry,
    referrerPolicyEntry, permissionsPolicyEntry, cacheControlEntry, expectCtEntry,
    reportToEntry, nelEntry, clearSiteDataEntry, coepEntry, coopEntry, corpEntry,
    serverTimingEntry, acAllowOriginEntry, acAllowCredentialsEntry, acAllowMethodsEntry,
    acAllowHeadersEntry, acExposeHeadersEntry, acMaxAgeEntry, setCookieEntry,
    weightAndCategory, essentialHeaderWeights, advancedHeaderWeights, corsHeaderWeights,
    List.lookup]
  norm_num

/-- The total advanced weight carried by the registry (25). -/
theorem registry_weight_advanced :
    registryEntries.foldl (fun acc e =>
      if (weightAndCategory e.key).2 = "advanced" then acc + (weightAndCategory e.key).1
      else acc) 0 = 25 := by
  simp [registryEntries, hstsEntry, cspEntry, xctoEntry, xfoEntry, xssEntry,
    referrerPolicyEntry, permissionsPolicyEntry, cacheControlEntry, expectCtEntry,
    reportToEntry, nelEntry, clearSiteDataEntry, coepEntry, coopEntry, corpEntry,
    serverTimingEntry, acAllowOriginEntry, acAllowCredentialsEntry, acAllowMethodsEntry,
    acAllowHeadersEntry, acExposeHeadersEntry, acMaxAgeEntry, setCookieEntry,
    weightAndCategory, essentialHeaderWeights, advancedHeaderWeights, corsHeaderWeights,
    List.lookup]
  norm_num

/-- The total CORS weight carried by the registry (15). -/
theorem registry_weight_cors :
    registryEntries.foldl (fun acc e =>
      if (weightAndCategory e.key).2 = "cors" then acc + (weightAndCategory e.key).1
      else acc) 0 = 15 := by
  simp [registryEntries, hstsEntry, cspEntry, xctoEntry, xfoEntry, xssEntry,
    referrerPolicyEntry, permissionsPolicyEntry, cacheControlEntry, expectCtEntry,
    reportToEntry, nelEntry, clearSiteDataEntry, coepEntry, coopEntry, corpEntry,
    serverTimingEntry, acAllowOriginEntry, acAllowCredentialsEntry, acAllowMethodsEntry,
    acAllowHeadersEntry, acExposeHeadersEntry, acMaxAgeEntry, setCookieEntry,
    weightAndCategory, essentialHeaderWeights, advancedHeaderWeights, corsHeaderWeights,
    List.lookup]
  norm_num

/-- C8: when every essential, advanced and CORS registry header is present
with no validator issue and neither analyzer reports a finding, the final
score is exactly 100. -/
theorem perfect_headers_score_100 (m : HeaderMap) (hwf : wfHeaders m = true)
    (hreg : ∀ e ∈ registryEntries, (weightAndCategory e.key).2 ≠ "other" →
        (checkOne (truthyVal m) (isStar m) e).status = "present")
    (hdis : (checkDangerousHeaders (truthyVal m)).findings = [])
    (hcook : (cookieResultOf (truthyVal m)).findings = []) :
    (analyzeNormalized m).score = 100 := by
  show (analyzeCore (truthyVal m) (isStar m)).score = 100
  simp only [analyzeCore]
  rw [hdis, hcook,
      earnedPoints_full _ _ "essential" (by simp) registryEntries hreg,
      earnedPoints_full _ _ "advanced" (by simp) registryEntries hreg,
      earnedPoints_full _ _ "cors" (by simp) registryEntries hreg,
      registry_weight_essential, registry_weight_advanced, registry_weight_cors]
  norm_num [sumValues, essentialHeaderWeights, advancedHeaderWeights, corsHeaderWeights,
    jsRound, maxDangerousHeadersPenalty, maxCookieSecurityPenalty]

/-- C8 (witness): the fully configured concrete header map. -/
theorem perfect_headers_score_100_witness :
    (analyzeNormalized perfectHeaderMap).score = 100 :=
  perfect_headers_score_100 perfectHeaderMap (by decide) (by decide) (by decide) rfl

end SHX
